import Mathlib

/-!
Verification development for the `seo-checker` analyzer (`src/index.js`).

The analyzer is embedded shallowly: document texts are `List Char`; the
JavaScript regular expressions used by the source are implemented as
deterministic scanners with the same leftmost-match, lazy/greedy semantics
(each pattern used by the source resolves deterministically, as noted at each
definition); the file-system, the `vm` sandbox and `JSON.parse` are external
collaborators and enter as oracle parameters.  Fractional scores are modelled
in `ℚ`, with `Math.round` modelled as `⌊x + 1/2⌋`.
-/

/-- Documents and all derived strings are explicit character lists. -/
def strToList (s : String) : List Char := s.toList

/-- The apostrophe character (U+0027), one of the three JS quote characters. -/
def quoteChar : Char := Char.ofNat 39

/-- The backtick character (U+0060), one of the three JS quote characters. -/
def backtickChar : Char := Char.ofNat 96

/-- Opening curly brace character. -/
def lbraceChar : Char := Char.ofNat 123

/-- Closing curly brace character. -/
def rbraceChar : Char := Char.ofNat 125

/-- JS regex `\s` class, restricted to its ASCII members (space, tab, LF, CR,
vertical tab, form feed); the analyzer only meets these in source files. -/
def isSpaceJS (c : Char) : Bool :=
  c = ' ' || c = '\t' || c = '\n' || c = '\r' || c = Char.ofNat 11 || c = Char.ofNat 12

/-- Skip a (possibly empty) run of whitespace: the greedy `\s*`. -/
def skipWs (cs : List Char) : List Char := cs.dropWhile isSpaceJS

/-- JS `String.prototype.trim` on our whitespace class. -/
def trimChars (cs : List Char) : List Char :=
  ((cs.dropWhile isSpaceJS).reverse.dropWhile isSpaceJS).reverse

/-- JS `String.prototype.includes`: `needle` occurs as a contiguous substring. -/
def containsSub (needle : List Char) : List Char → Bool
  | [] => needle.isEmpty
  | c :: cs => needle.isPrefixOf (c :: cs) || containsSub needle cs

/-- Consume an exact literal from the front, returning the remainder. -/
def dropLit : List Char → List Char → Option (List Char)
  | [], cs => some cs
  | _ :: _, [] => none
  | l :: ls, c :: cs => if c = l then dropLit ls cs else none

/-- Leftmost-match search: try the position matcher `m` at every position from
the left, as a JS regex engine does for a non-global pattern. -/
def firstMatch {α : Type} (m : List Char → Option α) : List Char → Option α
  | [] => m []
  | c :: cs =>
    match m (c :: cs) with
    | some r => some r
    | none => firstMatch m cs

/-- Quote class `[`"']` of the scalar-field patterns. -/
def isQuote (c : Char) : Bool := c = quoteChar || c = '"' || c = backtickChar

/-- Position matcher for the scalar-field pattern `field:\s*[`"']([^`"']*)[`"']`
(src/index.js lines 159, 162, 465, 479, 501).  The greedy `\s*` must be
followed by a quote, and the greedy `[^`"']*` by a quote, so the regex is
deterministic; the captured group is returned. -/
def matchScalarFrom (fieldColon : List Char) (cs : List Char) : Option (List Char) :=
  match dropLit fieldColon cs with
  | none => none
  | some r1 =>
    match skipWs r1 with
    | [] => none
    | q :: r2 =>
      if isQuote q then
        let val := r2.takeWhile (fun c => !(isQuote c))
        match r2.dropWhile (fun c => !(isQuote c)) with
        | _ :: _ => some val
        | [] => none
      else none

/-- The lazy tail `([\s\S]*?)\}\s*\)` of the `generateSEO` call pattern
(src/index.js line 152): the body ends at the first `}` that is followed by
optional whitespace and `)`. -/
def findCloseBraceParen : List Char → Option (List Char)
  | [] => none
  | c :: cs =>
    if c = rbraceChar then
      match skipWs cs with
      | ')' :: _ => some []
      | _ => (findCloseBraceParen cs).map (c :: ·)
    else (findCloseBraceParen cs).map (c :: ·)

/-- Position matcher for `generateSEO\s*\(\s*\{([\s\S]*?)\}\s*\)`
(src/index.js line 152), returning the captured argument text. -/
def matchCallFrom (cs : List Char) : Option (List Char) :=
  match dropLit (strToList "generateSEO") cs with
  | none => none
  | some r1 =>
    match skipWs r1 with
    | '(' :: r2 =>
      match skipWs r2 with
      | b :: r3 => if b = lbraceChar then findCloseBraceParen r3 else none
      | [] => none
    | _ => none

/-- Leftmost `generateSEO(...)` call match over a whole document. -/
def firstCallMatch (content : List Char) : Option (List Char) :=
  firstMatch matchCallFrom content

/-- The lazy capture `([\s\S]*?)` terminated by a single literal character:
everything strictly before the first occurrence of `t`. -/
def takeUntilChar (t : Char) : List Char → Option (List Char)
  | [] => none
  | c :: cs => if c = t then some [] else (takeUntilChar t cs).map (c :: ·)

/-- Position matcher for the collection-field pattern `field:\s*\[([\s\S]*?)\]`
(src/index.js line 172). -/
def matchArrayFrom (fieldColon : List Char) (cs : List Char) : Option (List Char) :=
  match dropLit fieldColon cs with
  | none => none
  | some r1 =>
    match skipWs r1 with
    | '[' :: r2 => takeUntilChar ']' r2
    | _ => none

/-- Position matcher for the object-field pattern `field:\s*\{([\s\S]*?)\}`
(src/index.js line 186). -/
def matchObjectFrom (fieldColon : List Char) (cs : List Char) : Option (List Char) :=
  match dropLit fieldColon cs with
  | none => none
  | some r1 =>
    match skipWs r1 with
    | b :: r2 => if b = lbraceChar then takeUntilChar rbraceChar r2 else none
    | [] => none

/-- Position matcher for the second `image` alternative ``image:\s*`([^`]*)` ``
(src/index.js line 166). -/
def matchImageBacktickFrom (cs : List Char) : Option (List Char) :=
  match dropLit (strToList "image:") cs with
  | none => none
  | some r1 =>
    match skipWs r1 with
    | [] => none
    | q :: r2 =>
      if q = backtickChar then
        let val := r2.takeWhile (fun c => decide (c ≠ backtickChar))
        match r2.dropWhile (fun c => decide (c ≠ backtickChar)) with
        | _ :: _ => some val
        | [] => none
      else none

/-- Position matcher for the alternation
``image:\s*[`"']([^`"']*)[`"']|image:\s*`([^`]*)` `` (src/index.js line 166):
at each position the first alternative is tried, then the second.  The result
carries the two capture groups (`imageMatch[1]`, `imageMatch[2]`). -/
def matchImageFrom (cs : List Char) : Option (Option (List Char) × Option (List Char)) :=
  match matchScalarFrom (strToList "image:") cs with
  | some v => some (some v, none)
  | none =>
    match matchImageBacktickFrom cs with
    | some v => some (none, some v)
    | none => none

/-- Number of `{` characters in a span — the cardinality estimate of
src/index.js line 177. -/
def countOpenBraces (cs : List Char) : Nat :=
  cs.countP (fun c => decide (c = lbraceChar))

/-- The `ParameterSet` extracted from a `generateSEO` call site
(src/index.js lines 150-193).  Absent JS properties (and properties whose
value is `undefined`) are `none` / `false`. -/
structure ParameterSet where
  title : Option (List Char) := none
  description : Option (List Char) := none
  image : Option (List Char) := none
  faqs : Option Nat := none
  branches : Option Nat := none
  services : Option Nat := none
  products : Option Nat := none
  news : Option Nat := none
  grant : Bool := false
  contactPage : Bool := false
  awards : Bool := false
  breadcrumb : Bool := false
deriving DecidableEq, Repr

/-- Count extraction for one collection field (src/index.js lines 171-181):
on a match, the trimmed span must be non-empty; the count is the number of
opening braces, or 1 when there are none. -/
def extractArrayCount (fieldColon : List Char) (paramString : List Char) : Option Nat :=
  match firstMatch (matchArrayFrom fieldColon) paramString with
  | none => none
  | some span =>
    let arrayContent := trimChars span
    if arrayContent.isEmpty then none
    else
      let objectCount := countOpenBraces arrayContent
      some (if 0 < objectCount then objectCount else 1)

/-- Presence extraction for one object field (src/index.js lines 184-190). -/
def extractObjectFlag (fieldColon : List Char) (paramString : List Char) : Bool :=
  (firstMatch (matchObjectFrom fieldColon) paramString).isSome

/-- The `image` scalar with the JS `imageMatch[1] || imageMatch[2]` rule
(src/index.js line 167): an empty first capture falls through to the second
group, which may be absent. -/
def extractImageParam (paramString : List Char) : Option (List Char) :=
  match firstMatch matchImageFrom paramString with
  | none => none
  | some (some v, g2) => if v.isEmpty then g2 else some v
  | some (none, g2) => g2

/-- `extractGenerateSEOParams` (src/index.js lines 150-193): locate the first
`generateSEO({...})` call, then pull scalar, collection and object fields out
of the captured argument text; `none` when no call matches. -/
def extractGenerateSEOParams (content : List Char) : Option ParameterSet :=
  match firstCallMatch content with
  | none => none
  | some paramString =>
    some
      { title := firstMatch (matchScalarFrom (strToList "title:")) paramString
        description := firstMatch (matchScalarFrom (strToList "description:")) paramString
        image := extractImageParam paramString
        faqs := extractArrayCount (strToList "faqs:") paramString
        branches := extractArrayCount (strToList "branches:") paramString
        services := extractArrayCount (strToList "services:") paramString
        products := extractArrayCount (strToList "products:") paramString
        news := extractArrayCount (strToList "news:") paramString
        grant := extractObjectFlag (strToList "grant:") paramString
        contactPage := extractObjectFlag (strToList "contactPage:") paramString
        awards := extractObjectFlag (strToList "awards:") paramString
        breadcrumb := false }

/-- Decimal digits of a natural number. -/
def natChars (n : Nat) : List Char := (toString n).toList

/-- Decimal digits of an integer. -/
def intChars (i : Int) : List Char := (toString i).toList

/-- `mapParamsToSchemas` (src/index.js lines 330-378): the static fallback
mapping from an extracted `ParameterSet` to schema-type strings.  A `none`
argument models the JS `null` parameter and yields `[]`. -/
def mapParamsToSchemas (params : Option ParameterSet) : List (List Char) :=
  match params with
  | none => []
  | some p =>
    [strToList "WebPage", strToList "Organization"]
    ++ (match p.faqs with
        | some n => if 0 < n then [strToList "FAQPage (" ++ natChars n ++ strToList " FAQs)"] else []
        | none => [])
    ++ (match p.products with
        | some n => if 0 < n then [strToList "Product (" ++ natChars n ++ strToList " products)"] else []
        | none => [])
    ++ (match p.services with
        | some n => if 0 < n then [strToList "Service (" ++ natChars n ++ strToList " services)"] else []
        | none => [])
    ++ (match p.branches with
        | some n => if 0 < n then [strToList "LocalBusiness (" ++ natChars n ++ strToList " branches)"] else []
        | none => [])
    ++ (match p.news with
        | some n => if 0 < n then [strToList "NewsArticle (" ++ natChars n ++ strToList " articles)"] else []
        | none => [])
    ++ (if p.grant then [strToList "Grant"] else [])
    ++ (if p.contactPage then [strToList "ContactPage"] else [])
    ++ (if p.awards then [strToList "Awards"] else [])
    ++ (if p.breadcrumb then [strToList "BreadcrumbList"] else [])

/-- One entry of the `meta` array produced by `generateSEO` in the sandbox;
only the properties read by the analyzer are modelled, each optional because
JS objects may lack them. -/
structure MetaEntry where
  name : Option (List Char) := none
  hid : Option (List Char) := none
  property : Option (List Char) := none
  content : List Char := []
deriving DecidableEq, Repr

/-- One entry of the `link` array of the sandbox output. -/
structure LinkEntry where
  rel : Option (List Char) := none
deriving DecidableEq, Repr

/-- One entry of the `script` array of the sandbox output. -/
structure ScriptEntry where
  innerHTML : Option (List Char) := none
deriving DecidableEq, Repr

/-- The sandbox evaluator's structured output (`SandboxResult` in the spec):
the object returned by `generateSEO`, with the three arrays the analyzer
reads; each may be absent. -/
structure SeoOutput where
  meta : Option (List MetaEntry) := none
  link : Option (List LinkEntry) := none
  script : Option (List ScriptEntry) := none
deriving DecidableEq, Repr

/-- The normalized per-document metadata record built by `checkMetaTags`
(src/index.js lines 383-391).  `ogTags`/`twitterTags` are the key sets of the
JS boolean maps, in first-insertion order. -/
structure MetaInfo where
  title : Option (List Char)
  description : Option (List Char)
  ogTags : List (List Char)
  twitterTags : List (List Char)
  canonical : Bool
  ogImage : Option (List Char)
  issues : List (List Char)
deriving DecidableEq, Repr

/-- Membership test on a key list (the JS `map[key]` truthiness test). -/
def memList (k : List Char) (ks : List (List Char)) : Bool :=
  ks.any fun x => decide (x = k)

/-- `map[key] = true` on the key-set representation: append the key if new. -/
def insertKey (ks : List (List Char)) (k : List Char) : List (List Char) :=
  if memList k ks then ks else ks ++ [k]

/-- Issue string of src/index.js line 401. -/
def titleShortMsg (n : Nat) : List Char :=
  strToList "Title too short (" ++ natChars n ++ strToList " chars, recommended: 50-60)"

/-- Issue string of src/index.js line 403. -/
def titleLongMsg (n : Nat) : List Char :=
  strToList "Title too long (" ++ natChars n ++ strToList " chars, recommended: 50-60)"

/-- Issue string of src/index.js line 413. -/
def descShortMsg (n : Nat) : List Char :=
  strToList "Meta description too short (" ++ natChars n ++ strToList " chars, recommended: 120-160)"

/-- Issue string of src/index.js line 415. -/
def descLongMsg (n : Nat) : List Char :=
  strToList "Meta description too long (" ++ natChars n ++ strToList " chars, recommended: 120-160)"

/-- Issue string of src/index.js line 447. -/
def ogMissingMsg (missing : List (List Char)) : List Char :=
  strToList "Missing Open Graph tags: " ++ List.intercalate (strToList ", ") missing

/-- Issue string of src/index.js line 453. -/
def twMissingMsg (missing : List (List Char)) : List Char :=
  strToList "Missing Twitter Card tags: " ++ List.intercalate (strToList ", ") missing

/-- Issue string of src/index.js lines 457, 489, 551. -/
def canonicalMissingLit : List Char := strToList "Missing canonical URL"

/-- Issue string of src/index.js line 475. -/
def titleMissingLit : List Char := strToList "Missing page title"

/-- Issue string of src/index.js line 489. -/
def descMissingLit : List Char := strToList "Missing meta description"

/-- Required Open Graph tag set (src/index.js lines 444, 521). -/
def requiredOgTags : List (List Char) :=
  [strToList "title", strToList "description", strToList "image", strToList "url"]

/-- Required Twitter Card tag set (src/index.js lines 450, 541). -/
def requiredTwitterTags : List (List Char) :=
  [strToList "card", strToList "title", strToList "description", strToList "image"]

/-- Title-length banding shared by both paths of `checkMetaTags`
(src/index.js lines 400-404 and 469-473): below 30 is short, above 60 long. -/
def titleLengthIssues (t : List Char) : List (List Char) :=
  if t.length < 30 then [titleShortMsg t.length]
  else if 60 < t.length then [titleLongMsg t.length]
  else []

/-- Description-length banding shared by both paths of `checkMetaTags`
(src/index.js lines 412-416 and 483-487): below 120 short, above 160 long. -/
def descLengthIssues (d : List Char) : List (List Char) :=
  if d.length < 120 then [descShortMsg d.length]
  else if 160 < d.length then [descLongMsg d.length]
  else []

/-- Predicate for the Open Graph filter `m.property && m.property.startsWith('og:')`
(src/index.js line 420); an empty property string is falsy in JS and also
fails the prefix test, so the prefix test alone is faithful. -/
def ogEntryP (m : MetaEntry) : Bool :=
  match m.property with
  | some p => (strToList "og:").isPrefixOf p
  | none => false

/-- Fold of src/index.js lines 421-429: collect Open Graph tag keys (the
`replace('og:','')` on an `og:`-prefixed string drops its first 3 chars) and
remember the last `og:image` content. -/
def collectOgTags (ms : List MetaEntry) : List (List Char) × Option (List Char) :=
  (ms.filter ogEntryP).foldl
    (fun acc m =>
      match m.property with
      | some p =>
        let tagName := p.drop 3
        (insertKey acc.1 tagName,
         if tagName = strToList "image" then some m.content else acc.2)
      | none => acc)
    ([], none)

/-- Predicate for the Twitter filter `m.name && m.name.startsWith('twitter:')`
(src/index.js line 432). -/
def twitterEntryP (m : MetaEntry) : Bool :=
  match m.name with
  | some p => (strToList "twitter:").isPrefixOf p
  | none => false

/-- Fold of src/index.js lines 433-436: collect Twitter tag keys
(`replace('twitter:','')` drops the first 8 chars of the prefixed name). -/
def collectTwitterTags (ms : List MetaEntry) : List (List Char) :=
  (ms.filter twitterEntryP).foldl
    (fun acc m =>
      match m.name with
      | some p => insertKey acc (p.drop 8)
      | none => acc)
    []

/-- Dynamic-output path of `checkMetaTags` (src/index.js lines 394-461),
taken when the sandbox output exists and carries a `meta` array. -/
def checkMetaTagsDynamic (ms : List MetaEntry) (out : SeoOutput) : MetaInfo :=
  let titleMeta := ms.find? fun m =>
    decide (m.name = some (strToList "title")) || decide (m.hid = some (strToList "title"))
  let titleIssues : List (List Char) :=
    match titleMeta with
    | some tm => titleLengthIssues tm.content
    | none => []
  let descMeta := ms.find? fun m =>
    decide (m.name = some (strToList "description")) || decide (m.hid = some (strToList "description"))
  let descIssues : List (List Char) :=
    match descMeta with
    | some dm => descLengthIssues dm.content
    | none => []
  let og := collectOgTags ms
  let tw := collectTwitterTags ms
  let canonical : Bool :=
    match out.link with
    | some ls => ls.any fun l => decide (l.rel = some (strToList "canonical"))
    | none => false
  let missingOg := requiredOgTags.filter fun t => !(memList t og.1)
  let ogIssues : List (List Char) := if missingOg.isEmpty then [] else [ogMissingMsg missingOg]
  let missingTw := requiredTwitterTags.filter fun t => !(memList t tw)
  let twIssues : List (List Char) := if missingTw.isEmpty then [] else [twMissingMsg missingTw]
  let canonIssues : List (List Char) := if canonical then [] else [canonicalMissingLit]
  { title := titleMeta.map (·.content)
    description := descMeta.map (·.content)
    ogTags := og.1
    twitterTags := tw
    canonical := canonical
    ogImage := og.2
    issues := titleIssues ++ descIssues ++ ogIssues ++ twIssues ++ canonIssues }

/-- The Open Graph token list scanned by the static fallback
(src/index.js lines 508-512). -/
def staticOgTagList : List (List Char) :=
  [strToList "og:title", strToList "og:description", strToList "og:image", strToList "og:url",
   strToList "og:type", strToList "og:site_name", strToList "ogTitle", strToList "ogDescription",
   strToList "ogImage", strToList "ogUrl", strToList "ogType", strToList "ogSiteName"]

/-- The Twitter token list scanned by the static fallback
(src/index.js lines 528-532). -/
def staticTwitterTagList : List (List Char) :=
  [strToList "twitter:card", strToList "twitter:title", strToList "twitter:description",
   strToList "twitter:image", strToList "twitter:site", strToList "twitterCard",
   strToList "twitterTitle", strToList "twitterDescription", strToList "twitterImage"]

/-- Lowercase an ASCII capital, identity otherwise — the JS
`replace(/([A-Z])/g, m => m.toLowerCase())`. -/
def lowerAZ (c : Char) : Char :=
  if 'A' ≤ c && c ≤ 'Z' then Char.ofNat (c.toNat + 32) else c

/-- JS `String.prototype.replace` with a plain-string pattern: replace the
first occurrence only. -/
def replaceFirst (pat rep : List Char) : List Char → List Char
  | [] => if pat.isEmpty then rep else []
  | c :: cs =>
    if pat.isPrefixOf (c :: cs) then rep ++ (c :: cs).drop pat.length
    else c :: replaceFirst pat rep cs

/-- Tag-key normalization of src/index.js lines 515 and 535:
strip the given prefix (first occurrence) and lowercase capitals. -/
def tagKeyOf (pre : List Char) (tag : List Char) : List Char :=
  (replaceFirst pre [] tag).map lowerAZ

/-- Static Open Graph detection (src/index.js lines 514-519): for each token
found verbatim in the content, record its normalized key. -/
def staticOgDetection (content : List Char) : List (List Char) :=
  staticOgTagList.foldl
    (fun acc tag =>
      if containsSub tag content then insertKey acc (tagKeyOf (strToList "og:") tag) else acc)
    []

/-- Static Twitter detection (src/index.js lines 534-539). -/
def staticTwitterDetection (content : List Char) : List (List Char) :=
  staticTwitterTagList.foldl
    (fun acc tag =>
      if containsSub tag content then insertKey acc (tagKeyOf (strToList "twitter:") tag) else acc)
    []

/-- Static-fallback path of `checkMetaTags` (src/index.js lines 463-556),
taken when there is no sandbox output (or it has no `meta` array). -/
def checkMetaTagsStatic (content : List Char) : MetaInfo :=
  let titleMatch := firstMatch (matchScalarFrom (strToList "title:")) content
  let titleIssues : List (List Char) :=
    match titleMatch with
    | some t => titleLengthIssues t
    | none => [titleMissingLit]
  let descMatch := firstMatch (matchScalarFrom (strToList "description:")) content
  let descIssues : List (List Char) :=
    match descMatch with
    | some d => descLengthIssues d
    | none => [descMissingLit]
  if containsSub (strToList "generateSEO(") content then
    { title := titleMatch
      description := descMatch
      ogTags := [strToList "title", strToList "description", strToList "image",
                 strToList "url", strToList "type", strToList "site_name"]
      twitterTags := [strToList "card", strToList "title", strToList "description",
                      strToList "image", strToList "site"]
      canonical := true
      ogImage := firstMatch (matchScalarFrom (strToList "image:")) content
      issues := titleIssues ++ descIssues }
  else
    let ogKeys := staticOgDetection content
    let twKeys := staticTwitterDetection content
    let missingOg := requiredOgTags.filter fun t => !(memList t ogKeys)
    let ogIssues : List (List Char) := if missingOg.isEmpty then [] else [ogMissingMsg missingOg]
    let missingTw := requiredTwitterTags.filter fun t => !(memList t twKeys)
    let twIssues : List (List Char) := if missingTw.isEmpty then [] else [twMissingMsg missingTw]
    let canonical : Bool :=
      containsSub (strToList "canonical:") content ||
      containsSub (strToList "link.*rel.*canonical") content
    let canonIssues : List (List Char) := if canonical then [] else [canonicalMissingLit]
    { title := titleMatch
      description := descMatch
      ogTags := ogKeys
      twitterTags := twKeys
      canonical := canonical
      ogImage := none
      issues := titleIssues ++ descIssues ++ ogIssues ++ twIssues ++ canonIssues }

/-- `checkMetaTags` (src/index.js lines 383-556): dynamic path when the
sandbox output exists and has a `meta` array, static fallback otherwise.
The `pageName` argument is unused by the source function. -/
def checkMetaTags (content _pageName : List Char) (seoOutput : Option SeoOutput) : MetaInfo :=
  match seoOutput with
  | some out =>
    match out.meta with
    | some ms => checkMetaTagsDynamic ms out
    | none => checkMetaTagsStatic content
  | none => checkMetaTagsStatic content

/-- Whether the static-fallback path of `checkMetaTags` applies
(the negation of the `seoOutput && seoOutput.meta` guard at line 394). -/
def staticPath (seoOutput : Option SeoOutput) : Bool :=
  match seoOutput with
  | some out => out.meta.isNone
  | none => true

/-- Discriminator: a title-length issue string (either band). -/
def isTitleLenIssue (s : List Char) : Bool := (strToList "Title too").isPrefixOf s

/-- Discriminator: a description-length issue string (either band). -/
def isDescLenIssue (s : List Char) : Bool := (strToList "Meta description too").isPrefixOf s

/-- Discriminator: the combined missing-Open-Graph-fields issue string. -/
def isOgMissingIssue (s : List Char) : Bool := (strToList "Missing Open Graph tags:").isPrefixOf s

/-- Discriminator: the combined missing-Twitter-fields issue string. -/
def isTwMissingIssue (s : List Char) : Bool := (strToList "Missing Twitter Card tags:").isPrefixOf s

/-- Discriminator: the missing-canonical issue string. -/
def isCanonicalMissingIssue (s : List Char) : Bool := decide (s = canonicalMissingLit)

/-- Discriminator: the missing-title issue string. -/
def isTitleMissingIssue (s : List Char) : Bool := decide (s = titleMissingLit)

/-- Discriminator: the missing-description issue string. -/
def isDescMissingIssue (s : List Char) : Bool := decide (s = descMissingLit)

/-- Case-insensitive literal prefix (the `i` flag): on success, return the
original consumed characters and the remainder. -/
def prefixCIDrop : List Char → List Char → Option (List Char × List Char)
  | [], cs => some ([], cs)
  | _ :: _, [] => none
  | p :: ps, c :: cs =>
    if lowerAZ c = lowerAZ p then
      (prefixCIDrop ps cs).map (fun r => (c :: r.1, r.2))
    else none

/-- Position matcher for a tag pattern `<name[^>]*>` with the `i` flag
(src/index.js lines 574, 623, 624): returns the full matched text.  The
greedy `[^>]*` must be followed by `>`, so the pattern is deterministic. -/
def matchTagAt (tname : List Char) : List Char → Option (List Char)
  | '<' :: rest =>
    match prefixCIDrop tname rest with
    | none => none
    | some (pre, r1) =>
      let attrs := r1.takeWhile (fun c => decide (c ≠ '>'))
      match r1.dropWhile (fun c => decide (c ≠ '>')) with
      | '>' :: _ => some ('<' :: (pre ++ attrs ++ ['>']))
      | _ => none
  | _ => none

/-- Global (`g` flag) scan for a tag pattern: after a match of length `L` the
engine resumes at the end of the match, i.e. the next `L - 1` positions after
the current one are skipped. -/
def scanTagsAux (tname : List Char) : List Char → Nat → List (List Char)
  | [], _ => []
  | _ :: cs, Nat.succ skip => scanTagsAux tname cs skip
  | c :: cs, 0 =>
    match matchTagAt tname (c :: cs) with
    | some s => s :: scanTagsAux tname cs (s.length - 1)
    | none => scanTagsAux tname cs 0

/-- All matches of `<tname[^>]*>` (flags `gi`) in document order. -/
def scanTags (tname : List Char) (cs : List Char) : List (List Char) :=
  scanTagsAux tname cs 0

/-- Position matcher for `<h([1-6])[^>]*>` with the `i` flag (src/index.js
line 584): returns the captured heading level and the match length. -/
def matchHeadingAt : List Char → Option (Nat × Nat)
  | '<' :: h :: d :: rest =>
    if (h = 'h' || h = 'H') && ('1' ≤ d && d ≤ '6') then
      let attrs := rest.takeWhile (fun c => decide (c ≠ '>'))
      match rest.dropWhile (fun c => decide (c ≠ '>')) with
      | '>' :: _ => some (d.toNat - '0'.toNat, 4 + attrs.length)
      | _ => none
    else none
  | _ => none

/-- Global scan for heading levels (flags `gi`), with the same resume rule. -/
def scanHeadingsAux : List Char → Nat → List Nat
  | [], _ => []
  | _ :: cs, Nat.succ skip => scanHeadingsAux cs skip
  | c :: cs, 0 =>
    match matchHeadingAt (c :: cs) with
    | some (lvl, len) => lvl :: scanHeadingsAux cs (len - 1)
    | none => scanHeadingsAux cs 0

/-- All heading levels matched by `<h([1-6])[^>]*>` in document order. -/
def scanHeadings (cs : List Char) : List Nat :=
  scanHeadingsAux cs 0

/-- Position matcher for the template region pattern
`<template[^>]*>([\s\S]*?)<\/template>` (src/index.js lines 569, 618):
the lazy body ends at the first occurrence of the closing literal. -/
def takeUntilLit (lit : List Char) : List Char → Option (List Char)
  | [] => none
  | c :: cs =>
    if lit.isPrefixOf (c :: cs) then some []
    else (takeUntilLit lit cs).map (c :: ·)

/-- Position matcher for the template region, returning the captured body. -/
def matchTemplateFrom (cs : List Char) : Option (List Char) :=
  match dropLit (strToList "<template") cs with
  | none => none
  | some r1 =>
    match r1.dropWhile (fun c => decide (c ≠ '>')) with
    | '>' :: r2 => takeUntilLit (strToList "</template>") r2
    | _ => none

/-- Per-document heading analysis result (src/index.js lines 562-566). -/
structure HeadingInfo where
  h1Count : Nat
  headings : List Nat
  issues : List (List Char)
deriving DecidableEq, Repr

/-- Issue string of src/index.js line 578. -/
def noH1Lit : List Char := strToList "No H1 tag found"

/-- Issue string of src/index.js line 580. -/
def multipleH1Msg (n : Nat) : List Char :=
  strToList "Multiple H1 tags found (" ++ natChars n ++ strToList "), should have only 1"

/-- Issue string of src/index.js line 599. -/
def hierarchyBrokenLit : List Char := strToList "Heading hierarchy broken (skipped levels)"

/-- The hierarchy walk of src/index.js lines 585-596: a violation is a heading
more than one level deeper than its predecessor (ignoring a zero start). -/
def hierarchyBroken : Nat → List Nat → Bool
  | _, [] => false
  | last, l :: ls => (decide (0 < last) && decide (last + 1 < l)) || hierarchyBroken l ls

/-- `checkHeadingStructure` (src/index.js lines 561-604): all work happens
inside the first `<template>...</template>` region; without one the result
stays at its initial zero state. -/
def checkHeadingStructure (content : List Char) : HeadingInfo :=
  match firstMatch matchTemplateFrom content with
  | none => { h1Count := 0, headings := [], issues := [] }
  | some template =>
    let h1Count := (scanTags (strToList "h1") template).length
    let h1Issues : List (List Char) :=
      if h1Count = 0 then [noH1Lit]
      else if 1 < h1Count then [multipleH1Msg h1Count]
      else []
    let headings := scanHeadings template
    let hierIssues : List (List Char) :=
      if hierarchyBroken 0 headings then [hierarchyBrokenLit] else []
    { h1Count := h1Count
      headings := headings
      issues := h1Issues ++ hierIssues }

/-- Per-document image analysis result (src/index.js lines 610-615). -/
structure ImageInfo where
  totalImages : Nat
  imagesWithAlt : Nat
  imagesWithoutAlt : Nat
  issues : List (List Char)
deriving DecidableEq, Repr

/-- Alt-attribute test of src/index.js line 630: an `alt=` attribute present
and not the empty double- or single-quoted string. -/
def hasAltAttr (img : List Char) : Bool :=
  containsSub (strToList "alt=") img &&
  !(containsSub (strToList "alt=\"\"") img) &&
  !(containsSub (strToList "alt=" ++ [quoteChar, quoteChar]) img)

/-- Lazy-loading test of src/index.js lines 643-645. -/
def hasLazyAttr (img : List Char) : Bool :=
  containsSub (strToList "loading=\"lazy\"") img || containsSub (strToList "lazy=") img

/-- JS `Math.round` on the rationals the analyzer produces: round half
toward positive infinity. -/
def jsRound (q : ℚ) : ℤ := ⌊q + 1 / 2⌋

/-- Issue string of src/index.js line 639. -/
def missingAltMsg (without : Nat) (coveragePct : ℤ) : List Char :=
  natChars without ++ strToList " images missing alt text (" ++ intChars coveragePct
    ++ strToList "% coverage)"

/-- Issue string of src/index.js line 648. -/
def lazyLoadingLit : List Char :=
  strToList "Consider implementing lazy loading for below-the-fold images"

/-- `checkImages` (src/index.js lines 609-653): find `<img>` and `<NuxtImg>`
tags inside the first template region, count alt-text coverage and check
lazy loading; without a template region the result stays at zero. -/
def checkImages (content : List Char) : ImageInfo :=
  match firstMatch matchTemplateFrom content with
  | none => { totalImages := 0, imagesWithAlt := 0, imagesWithoutAlt := 0, issues := [] }
  | some template =>
    let imgTags := scanTags (strToList "img") template
    let nuxtImgTags := scanTags (strToList "NuxtImg") template
    let allImages := imgTags ++ nuxtImgTags
    let totalImages := allImages.length
    let imagesWithAlt := allImages.countP hasAltAttr
    let imagesWithoutAlt := allImages.countP (fun i => !(hasAltAttr i))
    let altIssues : List (List Char) :=
      if 0 < imagesWithoutAlt then
        [missingAltMsg imagesWithoutAlt (jsRound (((imagesWithAlt : ℚ) / (totalImages : ℚ)) * 100))]
      else []
    let lazyLoadedImages := (allImages.filter hasLazyAttr).length
    let lazyIssues : List (List Char) :=
      if 2 < totalImages && lazyLoadedImages < totalImages - 2 then [lazyLoadingLit] else []
    { totalImages := totalImages
      imagesWithAlt := imagesWithAlt
      imagesWithoutAlt := imagesWithoutAlt
      issues := altIssues ++ lazyIssues }

/-- One member of a parsed JSON-LD `@graph`, reduced to the properties the
analyzer reads (src/index.js lines 697-709): the `@type` string and, when a
`mainEntity` array exists, its length. -/
structure JsonItem where
  typeName : Option (List Char) := none
  mainEntityLen : Option Nat := none
deriving DecidableEq, Repr

/-- The parsed JSON-LD document: the analyzer only asks for `@graph`
(src/index.js line 696); a JS array is truthy even when empty. -/
structure JsonDoc where
  graph : Option (List JsonItem) := none
deriving DecidableEq, Repr

/-- Mapping of one `@graph` member to a schema string (src/index.js
lines 699-709); the `Product` branch returns the type name unchanged. -/
def mapGraphItem (it : JsonItem) : List Char :=
  match it.typeName with
  | some t =>
    if t = strToList "FAQPage" then
      match it.mainEntityLen with
      | some n => t ++ strToList " (" ++ natChars n ++ strToList " FAQs)"
      | none => t
    else t
  | none => []

/-- Truthiness filter `item['@type']` of src/index.js line 698. -/
def graphItemP (it : JsonItem) : Bool :=
  match it.typeName with
  | some t => !t.isEmpty
  | none => false

/-- Schema derivation from a successful sandbox output (src/index.js
lines 691-722): parse the first script payload when present and non-empty and
read `@graph`; fall back to `mapParamsToSchemas` when the payload is missing,
empty, or fails to parse; a parsed document without `@graph` leaves the list
empty.  `jsonParse` is the `JSON.parse` oracle (`none` models a throw). -/
def schemasFromOutput (jsonParse : List Char → Option JsonDoc)
    (ps : ParameterSet) (out : SeoOutput) : List (List Char) :=
  match out.script with
  | some (e :: _) =>
    match e.innerHTML with
    | some s =>
      if !s.isEmpty then
        match jsonParse s with
        | some doc =>
          match doc.graph with
          | some items => (items.filter graphItemP).map mapGraphItem
          | none => []
        | none => mapParamsToSchemas (some ps)
      else mapParamsToSchemas (some ps)
    | none => mapParamsToSchemas (some ps)
  | _ => mapParamsToSchemas (some ps)

/-- Legacy schema detection (src/index.js lines 728-737), used when the list
is still empty after the parameter pipeline. -/
def legacySchemas (content : List Char) : List (List Char) :=
  (if containsSub (strToList "contactPage:") content then [strToList "ContactPage"] else [])
  ++ (if containsSub (strToList "grant:") content then [strToList "Grant"] else [])
  ++ (if containsSub (strToList "products:") content then [strToList "Product"] else [])
  ++ (if containsSub (strToList "services:") content then [strToList "Service"] else [])
  ++ (if containsSub (strToList "faqs:") content then [strToList "FAQPage"] else [])
  ++ (if containsSub (strToList "breadcrumb:") content || containsSub (strToList "breadcrumbs:") content
      then [strToList "BreadcrumbList"] else [])

/-- The per-document record returned by `checkPageSEO`
(src/index.js lines 745-758). -/
structure PageRecord where
  path : List Char
  pageName : List Char
  hasGenerateSEO : Bool
  hasUseSeoMeta : Bool
  hasUseHead : Bool
  schemas : List (List Char)
  schemaDetails : Option ParameterSet
  hasSEO : Bool
  metaTags : MetaInfo
  headings : HeadingInfo
  images : ImageInfo
deriving DecidableEq, Repr

/-- Page-name derivation `relativePath.replace(/\.vue$/, '')`
(src/index.js line 662). -/
def stripVueExt (p : List Char) : List Char :=
  if (strToList ".vue").isSuffixOf p then p.take (p.length - 4) else p

/-- The fixed ignore set `config.ignorePaths` (src/index.js line 70). -/
def ignorePaths : List (List Char) :=
  [strToList "purchase/order", strToList "purchase/orderLead", strToList "purchase",
   strToList "admin", strToList "api"]

/-- `checkPageSEO` (src/index.js lines 658-763), for a document whose text was
read successfully.  `evaluateGenerateSEO` is the sandbox-evaluator oracle
(`none` models every failure mode of src/index.js lines 198-325) and
`jsonParse` the `JSON.parse` oracle; ignored paths yield `none` exactly as
the early return at line 670 does. -/
def checkPageSEO (evaluateGenerateSEO : ParameterSet → Option SeoOutput)
    (jsonParse : List Char → Option JsonDoc)
    (relativePath content : List Char) : Option PageRecord :=
  let pageName := stripVueExt relativePath
  if ignorePaths.any (fun ip => containsSub ip relativePath) then none
  else
    let hasGenerateSEO := containsSub (strToList "generateSEO(") content
    let hasUseSeoMeta := containsSub (strToList "useSeoMeta(") content
    let hasUseHead := containsSub (strToList "useHead(") content
    let extractedParams : Option ParameterSet :=
      if hasGenerateSEO then extractGenerateSEOParams content else none
    let seoOutput : Option SeoOutput :=
      match extractedParams with
      | some ps => evaluateGenerateSEO ps
      | none => none
    let schemas0 : List (List Char) :=
      if hasGenerateSEO then
        match extractedParams with
        | some ps =>
          match seoOutput with
          | some out => schemasFromOutput jsonParse ps out
          | none => mapParamsToSchemas (some ps)
        | none => []
      else []
    let schemas :=
      if hasGenerateSEO && schemas0.isEmpty then legacySchemas content else schemas0
    some
      { path := relativePath
        pageName := pageName
        hasGenerateSEO := hasGenerateSEO
        hasUseSeoMeta := hasUseSeoMeta
        hasUseHead := hasUseHead
        schemas := schemas
        schemaDetails := extractedParams
        hasSEO := (hasGenerateSEO || hasUseSeoMeta) && hasUseHead
        metaTags := checkMetaTags content pageName seoOutput
        headings := checkHeadingStructure content
        images := checkImages content }

/-- Whether `checkPageSEO` reaches the sandbox-evaluation call of
src/index.js line 689 for a document: the declaration substring must be
present and parameter extraction must succeed. -/
def dynamicEvalAttempted (content : List Char) : Bool :=
  containsSub (strToList "generateSEO(") content && (extractGenerateSEOParams content).isSome

/-- The aggregation state mutated by the `pageResults.forEach` loop of `main`
(src/index.js lines 1419-1439); `ogImageUsage` is the insertion-ordered
association list behind the JS object. -/
structure AggState where
  pagesWithSEO : List PageRecord
  pagesWithoutSEO : List PageRecord
  ogImageUsage : List (List Char × List (List Char))
  pagesWithoutOGImage : List (List Char)
deriving DecidableEq, Repr

/-- The empty aggregation state of the `results` literal (src/index.js
lines 90-112). -/
def initAggState : AggState :=
  { pagesWithSEO := [], pagesWithoutSEO := [], ogImageUsage := [], pagesWithoutOGImage := [] }

/-- `results.ogImageUsage[image].push(pageName)` with creation of a fresh
entry when the key is new (src/index.js lines 1427-1430). -/
def addImageUsage : List (List Char × List (List Char)) → List Char → List Char →
    List (List Char × List (List Char))
  | [], img, name => [(img, [name])]
  | (k, v) :: rest, img, name =>
    if k = img then (k, v ++ [name]) :: rest
    else (k, v) :: addImageUsage rest img name

/-- The truthy image reference of a record: the JS condition
`result.schemaDetails && result.schemaDetails.image` (src/index.js line 1425);
an empty string is falsy. -/
def recImageRef (r : PageRecord) : Option (List Char) :=
  match r.schemaDetails with
  | some sd =>
    match sd.image with
    | some img => if img.isEmpty then none else some img
    | none => none
  | none => none

/-- One iteration of the aggregation loop (src/index.js lines 1419-1439). -/
def aggregateStep (st : AggState) (result : Option PageRecord) : AggState :=
  match result with
  | none => st
  | some r =>
    if r.hasSEO then
      let st1 := { st with pagesWithSEO := st.pagesWithSEO ++ [r] }
      match recImageRef r with
      | some img =>
        { st1 with ogImageUsage := addImageUsage st1.ogImageUsage img r.pageName }
      | none =>
        if r.hasGenerateSEO then
          { st1 with pagesWithoutOGImage := st1.pagesWithoutOGImage ++ [r.pageName] }
        else st1
    else { st with pagesWithoutSEO := st.pagesWithoutSEO ++ [r] }

/-- The whole aggregation pass over the per-document results. -/
def aggregate (rs : List (Option PageRecord)) : AggState :=
  rs.foldl aggregateStep initAggState

/-- One category bucket of `results.categoryScores` (src/index.js
lines 114-120). -/
structure CategoryScore where
  score : ℚ
  maxScore : ℚ
  issues : List (List Char)
deriving DecidableEq, Repr

/-- The five category buckets. -/
structure CategoryScores where
  metaTags : CategoryScore
  technicalSEO : CategoryScore
  structuredData : CategoryScore
  imagesMedia : CategoryScore
  socialSharing : CategoryScore
deriving DecidableEq, Repr

/-- The initial buckets of src/index.js lines 114-120: zero points, fixed
maximum 20, no issues. -/
def initCategoryScores : CategoryScores :=
  { metaTags := { score := 0, maxScore := 20, issues := [] }
    technicalSEO := { score := 0, maxScore := 20, issues := [] }
    structuredData := { score := 0, maxScore := 20, issues := [] }
    imagesMedia := { score := 0, maxScore := 20, issues := [] }
    socialSharing := { score := 0, maxScore := 20, issues := [] } }

/-- Issue tagging `` `${page.pageName}: ${issue}` `` used throughout
`calculateCategoryScores`. -/
def tagIssue (pageName issue : List Char) : List Char :=
  pageName ++ strToList ": " ++ issue

/-- Rich-schema test of src/index.js lines 901-903 (`String.includes`). -/
def isRichSchema (s : List Char) : Bool :=
  containsSub (strToList "Product") s || containsSub (strToList "FAQ") s ||
  containsSub (strToList "LocalBusiness") s

/-- Social-sharing per-page issue filters of src/index.js lines 940-941. -/
def ogIssuesOf (p : PageRecord) : List (List Char) :=
  p.metaTags.issues.filter fun i => containsSub (strToList "Open Graph") i

/-- Twitter-issue filter of src/index.js line 941. -/
def twitterIssuesOf (p : PageRecord) : List (List Char) :=
  p.metaTags.issues.filter fun i => containsSub (strToList "Twitter") i

/-- The per-page social-penalty condition of src/index.js line 943. -/
def hasSocialIssue (p : PageRecord) : Bool :=
  !(ogIssuesOf p).isEmpty || !(twitterIssuesOf p).isEmpty

/-- Count of covered pages whose Open Graph key map has at least 4 keys
(src/index.js line 937). -/
def pagesWithOGCount (withSEO : List PageRecord) : Nat :=
  withSEO.countP fun p => decide (4 ≤ p.metaTags.ogTags.length)

/-- Count of covered pages whose Twitter key map has at least 4 keys
(src/index.js line 938). -/
def pagesWithTwitterCount (withSEO : List PageRecord) : Nat :=
  withSEO.countP fun p => decide (4 ≤ p.metaTags.twitterTags.length)

/-- `calculateCategoryScores` (src/index.js lines 845-962), as a function of
the aggregated inputs it reads: the two page partitions, whether a robots
configuration was found, and `results.missingFromSitemap`.  The early return
at line 847 leaves the initial buckets. -/
def calculateCategoryScores (withSEO withoutSEO : List PageRecord)
    (robotsConfigured : Bool) (missingFromSitemap : List (List Char)) : CategoryScores :=
  let totalPages := withSEO.length + withoutSEO.length
  if totalPages = 0 then initCategoryScores
  else
    -- Meta Tags (lines 850-863): 20, minus 0.5 per covered-page issue,
    -- minus 2 per uncovered page, floored at 0.
    let metaScore : ℚ :=
      20 - (withSEO.map fun p => (p.metaTags.issues.length : ℚ) * (1 / 2)).sum
        - 2 * (withoutSEO.length : ℚ)
    let metaIssues : List (List Char) :=
      (withSEO.map fun p => p.metaTags.issues.map (tagIssue p.pageName)).flatten
      ++ withoutSEO.map fun p => tagIssue p.pageName (strToList "No SEO implementation")
    -- Technical SEO (lines 865-892).
    let pagesWithoutCanonical := withSEO.countP fun p => !p.metaTags.canonical
    let techScore : ℚ :=
      20 - (pagesWithoutCanonical : ℚ) * 1
        - (withSEO.map fun p => (p.headings.issues.length : ℚ) * (1 / 2)).sum
        - (if robotsConfigured then 0 else 3)
        - (if 0 < missingFromSitemap.length
           then min 3 ((missingFromSitemap.length : ℚ) * (1 / 2)) else 0)
    let techIssues : List (List Char) :=
      (withSEO.map fun p => p.headings.issues.map (tagIssue p.pageName)).flatten
      ++ (if robotsConfigured then [] else [strToList "No robots configuration"])
      ++ (if 0 < missingFromSitemap.length
          then [natChars missingFromSitemap.length ++ strToList " pages missing from sitemap"]
          else [])
    -- Structured Data (lines 894-905).
    let pagesWithSchemas := withSEO.countP fun p => !p.schemas.isEmpty
    let schemaPercentage : ℚ :=
      if 0 < totalPages then (pagesWithSchemas : ℚ) / (totalPages : ℚ) else 0
    let schemaScore0 : ℤ := jsRound (schemaPercentage * 20)
    let hasRichSchemas := withSEO.any fun p => p.schemas.any isRichSchema
    let schemaScore : ℤ := if hasRichSchemas then min 20 (schemaScore0 + 2) else schemaScore0
    -- Images and Media (lines 907-928).
    let totalImages := (withSEO.map fun p => p.images.totalImages).sum
    let imagesWithoutAlt := (withSEO.map fun p => p.images.imagesWithoutAlt).sum
    let imageIssues : List (List Char) :=
      (withSEO.map fun p => p.images.issues.map (tagIssue p.pageName)).flatten
    let imageScore : ℚ :=
      if 0 < totalImages then
        ((jsRound ((((totalImages : ℚ) - (imagesWithoutAlt : ℚ)) / (totalImages : ℚ)) * 20) : ℤ) : ℚ)
      else 20
    -- Social Sharing (lines 930-957): the issue loop decrements a running
    -- score which the ratio recomputation then overwrites.
    let socialRunning : ℚ := 20 - (withSEO.countP hasSocialIssue : ℚ)
    let socialIssues : List (List Char) :=
      (withSEO.filter hasSocialIssue).map fun p =>
        tagIssue p.pageName (List.intercalate (strToList ", ") (ogIssuesOf p ++ twitterIssuesOf p))
    let socialScore : ℚ :=
      if 0 < totalPages then
        ((jsRound ((((pagesWithOGCount withSEO : ℚ) / (totalPages : ℚ)
          + (pagesWithTwitterCount withSEO : ℚ) / (totalPages : ℚ)) / 2) * 20) : ℤ) : ℚ)
      else socialRunning
    { metaTags := { score := max 0 metaScore, maxScore := 20, issues := metaIssues }
      technicalSEO := { score := max 0 techScore, maxScore := 20, issues := techIssues }
      structuredData := { score := (schemaScore : ℚ), maxScore := 20, issues := [] }
      imagesMedia := { score := max 0 imageScore, maxScore := 20, issues := imageIssues }
      socialSharing := { score := max 0 socialScore, maxScore := 20, issues := socialIssues } }

/-- Selector for the five collection fields of the Parameter Extractor
(src/index.js line 170), used to state properties uniformly. -/
inductive CollectionField
  | faqs
  | branches
  | services
  | products
  | news
deriving DecidableEq, Repr

/-- The `field:` literal each collection field anchors its pattern on. -/
def fieldPat : CollectionField → List Char
  | .faqs => strToList "faqs:"
  | .branches => strToList "branches:"
  | .services => strToList "services:"
  | .products => strToList "products:"
  | .news => strToList "news:"

/-- The `ParameterSet` projection for each collection field. -/
def fieldGet : CollectionField → ParameterSet → Option Nat
  | .faqs, ps => ps.faqs
  | .branches, ps => ps.branches
  | .services, ps => ps.services
  | .products, ps => ps.products
  | .news, ps => ps.news

/-- An empty normalized metadata record, for sample inputs. -/
def emptyMetaInfo : MetaInfo :=
  { title := none, description := none, ogTags := [], twitterTags := [],
    canonical := false, ogImage := none, issues := [] }

/-- An empty heading record, for sample inputs. -/
def emptyHeadingInfo : HeadingInfo := { h1Count := 0, headings := [], issues := [] }

/-- An empty image record, for sample inputs. -/
def emptyImageInfo : ImageInfo :=
  { totalImages := 0, imagesWithAlt := 0, imagesWithoutAlt := 0, issues := [] }

/-- A covered page record that used `useSeoMeta` and `useHead` but not
`generateSEO`; its `hasSEO` flag is true and it has no extracted parameters. -/
def baseRec : PageRecord :=
  { path := strToList "home.vue", pageName := strToList "home",
    hasGenerateSEO := false, hasUseSeoMeta := true, hasUseHead := true,
    schemas := [], schemaDetails := none, hasSEO := true,
    metaTags := emptyMetaInfo, headings := emptyHeadingInfo, images := emptyImageInfo }

/-- A covered page record carrying an image reference. -/
def recWithImage : PageRecord :=
  { baseRec with hasGenerateSEO := true,
                 schemaDetails := some { image := some (strToList "img.png") } }

/-- A covered page record that used `generateSEO` but carries no image. -/
def recGenNoImage : PageRecord :=
  { baseRec with pageName := strToList "about", hasGenerateSEO := true,
                 schemaDetails := some {} }

/-- Sample aggregation input: one covered record with an image reference. -/
def sampleAggInput : List (Option PageRecord) := [some recWithImage]

/-- Sample document text using `useSeoMeta` and `useHead` without
`generateSEO`. -/
def sampleContent : List Char := strToList "useSeoMeta() and useHead() here"

/-- Sample parameter set with a products count of 5 and nothing else. -/
def sampleProductParams : ParameterSet := { products := some 5 }

/-! ## Toolkit lemmas -/

theorem dropLit_isPrefixOf {lit : List Char} :
    ∀ {cs r : List Char}, dropLit lit cs = some r → lit.isPrefixOf cs = true := by
  induction lit with
  | nil => intro cs r _; simp [List.isPrefixOf]
  | cons l ls ih =>
    intro cs r h
    cases cs with
    | nil => simp [dropLit] at h
    | cons c cs' =>
      simp only [dropLit] at h
      by_cases hc : c = l
      · simp only [hc, if_pos rfl] at h
        simpa [List.isPrefixOf, hc] using ih h
      · simp [hc] at h

theorem firstMatch_eq_none {α : Type} {m : List Char → Option α} {needle : List Char}
    (hm : ∀ cs r, m cs = some r → needle.isPrefixOf cs = true) :
    ∀ {content : List Char}, containsSub needle content = false → firstMatch m content = none := by
  intro content
  induction content with
  | nil =>
    intro h
    simp only [firstMatch]
    cases hmc : m [] with
    | none => rfl
    | some r =>
      exfalso
      have hpre := hm [] r hmc
      cases needle with
      | nil => simp [containsSub] at h
      | cons a as => simp [List.isPrefixOf] at hpre
  | cons c cs ih =>
    intro h
    simp only [containsSub, Bool.or_eq_false_iff] at h
    simp only [firstMatch]
    cases hmc : m (c :: cs) with
    | none => exact ih h.2
    | some r =>
      have := hm (c :: cs) r hmc
      rw [h.1] at this
      cases this

theorem matchCallFrom_isPrefixOf {cs r : List Char} (h : matchCallFrom cs = some r) :
    (strToList "generateSEO").isPrefixOf cs = true := by
  simp only [matchCallFrom] at h
  cases hdl : dropLit (strToList "generateSEO") cs with
  | none => rw [hdl] at h; cases h
  | some r1 => exact dropLit_isPrefixOf hdl

theorem countP_dropWhile_of_excl (p q : Char → Bool) (hpq : ∀ c, p c = true → q c = false) :
    ∀ l : List Char, (l.dropWhile q).countP p = l.countP p := by
  intro l
  induction l with
  | nil => rfl
  | cons c cs ih =>
    by_cases hq : q c = true
    · have hp : p c = false := by
        cases hpc : p c with
        | false => rfl
        | true => rw [hpq c hpc] at hq; cases hq
      simp [List.dropWhile_cons, hq, ih, List.countP_cons, hp]
    · simp at hq
      simp [List.dropWhile_cons, hq]

theorem countP_reverse_chars (p : Char → Bool) :
    ∀ l : List Char, l.reverse.countP p = l.countP p := by
  intro l
  induction l with
  | nil => rfl
  | cons c cs ih =>
    simp [List.reverse_cons, List.countP_append, List.countP_cons, ih]

theorem countOpenBraces_trim (s : List Char) :
    countOpenBraces (trimChars s) = countOpenBraces s := by
  have hx : ∀ c : Char, decide (c = lbraceChar) = true → isSpaceJS c = false := by
    intro c hc
    rw [decide_eq_true_iff] at hc
    subst hc
    decide
  unfold trimChars countOpenBraces
  rw [countP_reverse_chars, countP_dropWhile_of_excl _ _ hx, countP_reverse_chars,
    countP_dropWhile_of_excl _ _ hx]

/-! ## C6: collection-field counts -/

/-- C6: for every collection field whose bracketed list is matched inside the
matched call-argument text, the extracted count is the number of opening
braces in the span when positive, 1 when the trimmed span is non-empty with
no braces, and the field is absent when the trimmed span is empty. -/
theorem c6_collection_counts (f : CollectionField) (content p span : List Char)
    (hc : firstCallMatch content = some p)
    (hs : firstMatch (matchArrayFrom (fieldPat f)) p = some span) :
    ∃ ps, extractGenerateSEOParams content = some ps ∧
      fieldGet f ps = (if (trimChars span).isEmpty then none
        else some (if 0 < countOpenBraces span then countOpenBraces span else 1)) := by
  unfold extractGenerateSEOParams
  rw [hc]
  refine ⟨_, rfl, ?_⟩
  have hcount : extractArrayCount (fieldPat f) p =
      (if (trimChars span).isEmpty then none
        else some (if 0 < countOpenBraces span then countOpenBraces span else 1)) := by
    simp only [extractArrayCount, hs, countOpenBraces_trim]
  cases f <;> simpa [fieldGet, fieldPat] using hcount

/-- Witness for C6 at a concrete two-element `faqs` list. -/
def c6Content : List Char :=
  strToList "generateSEO(\x7b faqs: [\x7b q: 1 \x7d, \x7b q: 2 \x7d] \x7d)"

/-- The call-argument text captured from `c6Content`. -/
def c6Param : List Char := strToList " faqs: [\x7b q: 1 \x7d, \x7b q: 2 \x7d] "

/-- The `faqs` span captured from `c6Param`. -/
def c6Span : List Char := strToList "\x7b q: 1 \x7d, \x7b q: 2 \x7d"

theorem c6_collection_counts_witness :
    firstCallMatch c6Content = some c6Param ∧
    firstMatch (matchArrayFrom (fieldPat CollectionField.faqs)) c6Param = some c6Span ∧
    ∃ ps, extractGenerateSEOParams c6Content = some ps ∧
      fieldGet CollectionField.faqs ps = (if (trimChars c6Span).isEmpty then none
        else some (if 0 < countOpenBraces c6Span then countOpenBraces c6Span else 1)) :=
  ⟨by decide, by decide,
    c6_collection_counts CollectionField.faqs c6Content c6Param c6Span (by decide) (by decide)⟩

/-! ## C7: products-only parameter mapping -/

/-- C7: a `ParameterSet` whose products count is 5 and whose other collection
fields are absent maps, without sandbox output, to a schema list containing
`Product (5 products)` and no schema entry derived from faqs, branches,
services or news. -/
theorem c7_products_roundtrip (ps : ParameterSet) (h5 : ps.products = some 5)
    (hf : ps.faqs = none) (hb : ps.branches = none) (hs : ps.services = none)
    (hn : ps.news = none) :
    strToList "Product (5 products)" ∈ mapParamsToSchemas (some ps) ∧
    ∀ s ∈ mapParamsToSchemas (some ps),
      ((strToList "FAQPage").isPrefixOf s || (strToList "LocalBusiness").isPrefixOf s
        || (strToList "Service").isPrefixOf s
        || (strToList "NewsArticle").isPrefixOf s) = false := by
  simp only [mapParamsToSchemas, h5, hf, hb, hs, hn]
  cases hg : ps.grant <;> cases hc : ps.contactPage <;> cases ha : ps.awards
    <;> cases hbc : ps.breadcrumb <;> refine ⟨by decide, ?_⟩ <;> decide

theorem c7_products_roundtrip_witness :
    sampleProductParams.products = some 5 ∧
    strToList "Product (5 products)" ∈ mapParamsToSchemas (some sampleProductParams) ∧
    ∀ s ∈ mapParamsToSchemas (some sampleProductParams),
      ((strToList "FAQPage").isPrefixOf s || (strToList "LocalBusiness").isPrefixOf s
        || (strToList "Service").isPrefixOf s
        || (strToList "NewsArticle").isPrefixOf s) = false := by
  refine ⟨rfl, ?_⟩
  exact c7_products_roundtrip sampleProductParams rfl rfl rfl rfl rfl

/-! ## C8: absent call yields null and no evaluation -/

/-- C8: a document that never mentions the metadata-generation entry point
makes the Parameter Extractor return `none` (the function is total, so no
exception and no empty set), and the sandbox evaluation of
src/index.js line 689 is never reached for it. -/
theorem c8_no_call_no_eval (content : List Char)
    (h : containsSub (strToList "generateSEO") content = false) :
    extractGenerateSEOParams content = none ∧ dynamicEvalAttempted content = false := by
  have hnone : firstCallMatch content = none :=
    firstMatch_eq_none (fun cs r hr => matchCallFrom_isPrefixOf hr) h
  constructor
  · simp only [extractGenerateSEOParams, hnone]
  · simp only [dynamicEvalAttempted, extractGenerateSEOParams, hnone, Option.isSome_none,
      Bool.and_false]

theorem c8_no_call_no_eval_witness :
    containsSub (strToList "generateSEO") (strToList "<template><div>hello</div></template>") = false ∧
    extractGenerateSEOParams (strToList "<template><div>hello</div></template>") = none ∧
    dynamicEvalAttempted (strToList "<template><div>hello</div></template>") = false := by
  refine ⟨by decide, ?_, ?_⟩
  · exact (c8_no_call_no_eval _ (by decide)).1
  · exact (c8_no_call_no_eval _ (by decide)).2

/-! ## C10: no template region, no heading or image findings -/

/-- C10: a document with no `<template>...</template>` region gets zero counts
and empty issue lists from both the heading check and the image check — in
particular none of the heading or image issue strings. -/
theorem c10_no_template_zero (content : List Char)
    (h : firstMatch matchTemplateFrom content = none) :
    checkHeadingStructure content = { h1Count := 0, headings := [], issues := [] } ∧
    checkImages content = { totalImages := 0, imagesWithAlt := 0, imagesWithoutAlt := 0, issues := [] } := by
  constructor
  · simp only [checkHeadingStructure, h]
  · simp only [checkImages, h]

theorem c10_no_template_zero_witness :
    firstMatch matchTemplateFrom (strToList "<div>hello generateSEO()</div>") = none ∧
    checkHeadingStructure (strToList "<div>hello generateSEO()</div>")
      = { h1Count := 0, headings := [], issues := [] } ∧
    checkImages (strToList "<div>hello generateSEO()</div>")
      = { totalImages := 0, imagesWithAlt := 0, imagesWithoutAlt := 0, issues := [] } := by
  refine ⟨by decide, ?_, ?_⟩
  · exact (c10_no_template_zero _ (by decide)).1
  · exact (c10_no_template_zero _ (by decide)).2

/-! ## Aggregation lemmas -/

theorem addImageUsage_names {l : List (List Char × List (List Char))} {img nm : List Char} :
    ∀ e ∈ addImageUsage l img nm, ∀ n ∈ e.2, (∃ e' ∈ l, n ∈ e'.2) ∨ n = nm := by
  induction l with
  | nil =>
    intro e he n hn
    simp only [addImageUsage, List.mem_singleton] at he
    subst he
    simp at hn
    right
    exact hn
  | cons kv rest ih =>
    obtain ⟨k, v⟩ := kv
    intro e he n hn
    by_cases hk : k = img
    · simp only [addImageUsage, if_pos hk, List.mem_cons] at he
      rcases he with rfl | he
      · simp only [List.mem_append, List.mem_singleton] at hn
        rcases hn with hn | rfl
        · exact Or.inl ⟨(k, v), List.mem_cons_self _ _, hn⟩
        · exact Or.inr rfl
      · exact Or.inl ⟨e, List.mem_cons_of_mem _ he, hn⟩
    · simp only [addImageUsage, if_neg hk, List.mem_cons] at he
      rcases he with rfl | he
      · exact Or.inl ⟨(k, v), List.mem_cons_self _ _, hn⟩
      · rcases ih e he n hn with ⟨e', he', hn'⟩ | rfl
        · exact Or.inl ⟨e', List.mem_cons_of_mem _ he', hn'⟩
        · exact Or.inr rfl

theorem addImageUsage_adds (l : List (List Char × List (List Char))) (img nm : List Char) :
    ∃ e ∈ addImageUsage l img nm, e.1 = img ∧ nm ∈ e.2 := by
  induction l with
  | nil => exact ⟨(img, [nm]), by simp [addImageUsage], rfl, by simp⟩
  | cons kv rest ih =>
    obtain ⟨k, v⟩ := kv
    by_cases hk : k = img
    · exact ⟨(k, v ++ [nm]), by simp [addImageUsage, if_pos hk], hk, by simp⟩
    · obtain ⟨e, he, h1, h2⟩ := ih
      exact ⟨e, by simp only [addImageUsage, if_neg hk]; exact List.mem_cons_of_mem _ he, h1, h2⟩

theorem addImageUsage_preserves {l : List (List Char × List (List Char))}
    {img nm k0 n : List Char} (h : ∃ e ∈ l, e.1 = k0 ∧ n ∈ e.2) :
    ∃ e ∈ addImageUsage l img nm, e.1 = k0 ∧ n ∈ e.2 := by
  induction l with
  | nil => simp at h
  | cons kv rest ih =>
    obtain ⟨k, v⟩ := kv
    obtain ⟨e, he, h1, h2⟩ := h
    rw [List.mem_cons] at he
    by_cases hk : k = img
    · rcases he with rfl | he
      · exact ⟨(k, v ++ [nm]), by simp [addImageUsage, if_pos hk], h1,
          List.mem_append_left _ h2⟩
      · exact ⟨e, by simp only [addImageUsage, if_pos hk]; exact List.mem_cons_of_mem _ he, h1, h2⟩
    · rcases he with rfl | he
      · exact ⟨(k, v), by simp only [addImageUsage, if_neg hk]; exact List.mem_cons_self _ _,
          h1, h2⟩
      · obtain ⟨e', he', h1', h2'⟩ := ih ⟨e, he, h1, h2⟩
        exact ⟨e', by simp only [addImageUsage, if_neg hk]; exact List.mem_cons_of_mem _ he', h1', h2'⟩

theorem aggregateStep_index_names {P : List Char → Prop} {st : AggState} {x : Option PageRecord}
    (hst : ∀ e ∈ st.ogImageUsage, ∀ n ∈ e.2, P n)
    (hx : ∀ r : PageRecord, x = some r → r.hasSEO = true → P r.pageName) :
    ∀ e ∈ (aggregateStep st x).ogImageUsage, ∀ n ∈ e.2, P n := by
  cases x with
  | none => simpa [aggregateStep] using hst
  | some r =>
    cases hseo : r.hasSEO with
    | false => simpa [aggregateStep, hseo] using hst
    | true =>
      cases him : recImageRef r with
      | some img =>
        simp only [aggregateStep, hseo, him, if_pos]
        intro e he n hn
        rcases addImageUsage_names e he n hn with ⟨e', he', hn'⟩ | rfl
        · exact hst e' he' n hn'
        · exact hx r rfl hseo
      | none =>
        cases hg : r.hasGenerateSEO with
        | false => simpa [aggregateStep, hseo, him, hg] using hst
        | true => simpa [aggregateStep, hseo, him, hg] using hst

theorem foldl_index_names {P : List Char → Prop} :
    ∀ (rs : List (Option PageRecord)) (st : AggState),
      (∀ e ∈ st.ogImageUsage, ∀ n ∈ e.2, P n) →
      (∀ r : PageRecord, some r ∈ rs → r.hasSEO = true → P r.pageName) →
      ∀ e ∈ (rs.foldl aggregateStep st).ogImageUsage, ∀ n ∈ e.2, P n := by
  intro rs
  induction rs with
  | nil => intro st hst _; simpa using hst
  | cons x rs ih =>
    intro st hst hrs
    simp only [List.foldl_cons]
    refine ih _ (aggregateStep_index_names hst ?_) ?_
    · intro r hr hseo
      exact hrs r (by rw [hr]; exact List.mem_cons_self _ _) hseo
    · intro r hr hseo
      exact hrs r (List.mem_cons_of_mem _ hr) hseo

theorem aggregateStep_mono_index {st : AggState} {x : Option PageRecord} {k n : List Char}
    (h : ∃ e ∈ st.ogImageUsage, e.1 = k ∧ n ∈ e.2) :
    ∃ e ∈ (aggregateStep st x).ogImageUsage, e.1 = k ∧ n ∈ e.2 := by
  cases x with
  | none => simpa [aggregateStep] using h
  | some r =>
    cases hseo : r.hasSEO with
    | false => simpa [aggregateStep, hseo] using h
    | true =>
      cases him : recImageRef r with
      | some img =>
        simp only [aggregateStep, hseo, him, if_pos]
        exact addImageUsage_preserves h
      | none =>
        cases hg : r.hasGenerateSEO with
        | false => simpa [aggregateStep, hseo, him, hg] using h
        | true => simpa [aggregateStep, hseo, him, hg] using h

theorem aggregateStep_mono_missing {st : AggState} {x : Option PageRecord} {n : List Char}
    (h : n ∈ st.pagesWithoutOGImage) :
    n ∈ (aggregateStep st x).pagesWithoutOGImage := by
  cases x with
  | none => simpa [aggregateStep] using h
  | some r =>
    cases hseo : r.hasSEO with
    | false => simpa [aggregateStep, hseo] using h
    | true =>
      cases him : recImageRef r with
      | some img => simpa [aggregateStep, hseo, him] using h
      | none =>
        cases hg : r.hasGenerateSEO with
        | false => simpa [aggregateStep, hseo, him, hg] using h
        | true =>
          simp only [aggregateStep, hseo, him, hg]
          exact List.mem_append_left _ h

theorem foldl_mono_index {k n : List Char} :
    ∀ (rs : List (Option PageRecord)) (st : AggState),
      (∃ e ∈ st.ogImageUsage, e.1 = k ∧ n ∈ e.2) →
      ∃ e ∈ (rs.foldl aggregateStep st).ogImageUsage, e.1 = k ∧ n ∈ e.2 := by
  intro rs
  induction rs with
  | nil => intro st h; simpa using h
  | cons x rs ih =>
    intro st h
    simp only [List.foldl_cons]
    exact ih _ (aggregateStep_mono_index h)

theorem foldl_mono_missing {n : List Char} :
    ∀ (rs : List (Option PageRecord)) (st : AggState),
      n ∈ st.pagesWithoutOGImage →
      n ∈ (rs.foldl aggregateStep st).pagesWithoutOGImage := by
  intro rs
  induction rs with
  | nil => intro st h; simpa using h
  | cons x rs ih =>
    intro st h
    simp only [List.foldl_cons]
    exact ih _ (aggregateStep_mono_missing h)

theorem aggregateStep_adds_image {st : AggState} {r : PageRecord} {img : List Char}
    (hseo : r.hasSEO = true) (him : recImageRef r = some img) :
    ∃ e ∈ (aggregateStep st (some r)).ogImageUsage, e.1 = img ∧ r.pageName ∈ e.2 := by
  simp only [aggregateStep, hseo, him, if_pos]
  exact addImageUsage_adds _ img r.pageName

theorem aggregateStep_adds_missing {st : AggState} {r : PageRecord}
    (hseo : r.hasSEO = true) (him : recImageRef r = none) (hg : r.hasGenerateSEO = true) :
    r.pageName ∈ (aggregateStep st (some r)).pagesWithoutOGImage := by
  simp only [aggregateStep, hseo, him, hg]
  exact List.mem_append_right _ (List.mem_singleton.mpr rfl)

/-! ## C1: the coverage flag and the image-usage index -/

/-- C1: a record produced by `checkPageSEO` has `hasSEO` true exactly when the
document text contains a metadata-declaration call substring (`generateSEO(`
or `useSeoMeta(`) and the head-injection substring (`useHead(`); and every
page name stored in the aggregated `ogImageUsage` index comes from a record
whose `hasSEO` is true, so a record with `hasSEO = false` is never added. -/
theorem c1_hasSEO_iff_and_index_covered :
    (∀ (ev : ParameterSet → Option SeoOutput) (jp : List Char → Option JsonDoc)
        (relativePath content : List Char) (rec : PageRecord),
        checkPageSEO ev jp relativePath content = some rec →
        rec.hasSEO = ((containsSub (strToList "generateSEO(") content
          || containsSub (strToList "useSeoMeta(") content)
          && containsSub (strToList "useHead(") content)) ∧
    (∀ rs : List (Option PageRecord), ∀ e ∈ (aggregate rs).ogImageUsage, ∀ n ∈ e.2,
        ∃ rec : PageRecord, some rec ∈ rs ∧ rec.hasSEO = true ∧ rec.pageName = n) := by
  constructor
  · intro ev jp relativePath content rec h
    simp only [checkPageSEO] at h
    split at h
    · cases h
    · cases h
      rfl
  · intro rs
    exact foldl_index_names rs initAggState (by simp [initAggState])
      (fun r hr hseo => ⟨r, hr, hseo, rfl⟩)

theorem c1_hasSEO_iff_and_index_covered_witness :
    (∃ rec : PageRecord,
      checkPageSEO (fun _ => none) (fun _ => none) (strToList "sample.vue") sampleContent
        = some rec ∧
      rec.hasSEO = ((containsSub (strToList "generateSEO(") sampleContent
        || containsSub (strToList "useSeoMeta(") sampleContent)
        && containsSub (strToList "useHead(") sampleContent)) ∧
    (∃ rec : PageRecord, some rec ∈ sampleAggInput ∧ rec.hasSEO = true ∧
      rec.pageName = strToList "home") := by
  constructor
  · cases h : checkPageSEO (fun _ => none) (fun _ => none) (strToList "sample.vue") sampleContent with
    | none => exact absurd h (by decide)
    | some rec => exact ⟨rec, rfl, c1_hasSEO_iff_and_index_covered.1 _ _ _ _ rec h⟩
  · exact c1_hasSEO_iff_and_index_covered.2 sampleAggInput
      (strToList "img.png", [strToList "home"]) (by decide) (strToList "home") (by decide)

/-! ## C9: aggregation of image references (corrected) -/

/-- C9 counterexample: `baseRec` has coverage (`hasSEO = true`) and carries no
image reference, yet after aggregation it sits in `pagesWithSEO` while the
missing-image list stays empty, because the source (src/index.js line 1431)
only tracks pages that used `generateSEO`.  The claim as stated requires
`home ∈ pagesWithoutOGImage` here. -/
theorem c9_counterexample :
    baseRec.hasSEO = true ∧ baseRec.hasGenerateSEO = false ∧ recImageRef baseRec = none ∧
    (aggregate [some baseRec]).pagesWithSEO = [baseRec] ∧
    (aggregate [some baseRec]).pagesWithoutOGImage = [] := by decide

/-- C9 amended: during aggregation, every covered record carrying a truthy
image reference has its page name appended under that image in
`ogImageUsage`; and every covered record without an image reference that used
`generateSEO` is tracked in `pagesWithoutOGImage` (records with coverage but
without `generateSEO` are not tracked). -/
theorem c9_amended_aggregation (rs : List (Option PageRecord)) (r : PageRecord)
    (hr : some r ∈ rs) (hseo : r.hasSEO = true) :
    (∀ img, recImageRef r = some img →
      ∃ e ∈ (aggregate rs).ogImageUsage, e.1 = img ∧ r.pageName ∈ e.2) ∧
    (recImageRef r = none → r.hasGenerateSEO = true →
      r.pageName ∈ (aggregate rs).pagesWithoutOGImage) := by
  obtain ⟨l1, l2, rfl⟩ := List.append_of_mem hr
  have hagg : aggregate (l1 ++ some r :: l2)
      = l2.foldl aggregateStep (aggregateStep (l1.foldl aggregateStep initAggState) (some r)) := by
    simp [aggregate, List.foldl_append]
  constructor
  · intro img him
    rw [hagg]
    exact foldl_mono_index l2 _ (aggregateStep_adds_image hseo him)
  · intro him hg
    rw [hagg]
    exact foldl_mono_missing l2 _ (aggregateStep_adds_missing hseo him hg)

theorem c9_amended_aggregation_witness :
    some recWithImage ∈ sampleAggInput ∧ recWithImage.hasSEO = true ∧
    recImageRef recWithImage = some (strToList "img.png") ∧
    (∃ e ∈ (aggregate sampleAggInput).ogImageUsage,
      e.1 = strToList "img.png" ∧ recWithImage.pageName ∈ e.2) ∧
    recImageRef recGenNoImage = none ∧ recGenNoImage.hasGenerateSEO = true ∧
    recGenNoImage.pageName ∈ (aggregate [some recGenNoImage]).pagesWithoutOGImage := by
  refine ⟨by decide, by decide, by decide, ?_, by decide, by decide, ?_⟩
  · exact (c9_amended_aggregation sampleAggInput recWithImage (by decide) (by decide)).1
      (strToList "img.png") (by decide)
  · exact (c9_amended_aggregation [some recGenNoImage] recGenNoImage (by decide) (by decide)).2
      (by decide) (by decide)

/-! ## String-discriminator toolkit -/

theorem prefixB_append_true {d q : List Char} (r : List Char) (h : d.isPrefixOf q = true) :
    d.isPrefixOf (q ++ r) = true := by
  rw [List.isPrefixOf_iff_prefix] at h ⊢
  exact h.trans (List.prefix_append q r)

theorem prefixB_append_false {d q : List Char} (r : List Char)
    (h1 : d.isPrefixOf q = false) (h2 : q.isPrefixOf d = false) :
    d.isPrefixOf (q ++ r) = false := by
  cases hdp : d.isPrefixOf (q ++ r) with
  | false => rfl
  | true =>
    exfalso
    rw [List.isPrefixOf_iff_prefix] at hdp
    rcases List.prefix_or_prefix_of_prefix hdp (List.prefix_append q r) with hc | hc
    · rw [← List.isPrefixOf_iff_prefix] at hc; rw [hc] at h1; cases h1
    · rw [← List.isPrefixOf_iff_prefix] at hc; rw [hc] at h2; cases h2

theorem eqB_append_false {lit q : List Char} (r : List Char) (h : q.isPrefixOf lit = false) :
    decide ((q ++ r) = lit) = false := by
  cases hd : decide ((q ++ r) = lit) with
  | false => rfl
  | true =>
    exfalso
    rw [decide_eq_true_iff] at hd
    have : q <+: lit := hd ▸ List.prefix_append q r
    rw [← List.isPrefixOf_iff_prefix] at this
    rw [this] at h
    cases h

/-! ### Discriminator values on each issue-message shape -/

theorem isTitleLenIssue_titleShortMsg (n : Nat) : isTitleLenIssue (titleShortMsg n) = true := by
  unfold isTitleLenIssue titleShortMsg
  rw [List.append_assoc]
  exact prefixB_append_true _ (by decide)

theorem isTitleLenIssue_titleLongMsg (n : Nat) : isTitleLenIssue (titleLongMsg n) = true := by
  unfold isTitleLenIssue titleLongMsg
  rw [List.append_assoc]
  exact prefixB_append_true _ (by decide)

theorem isDescLenIssue_descShortMsg (n : Nat) : isDescLenIssue (descShortMsg n) = true := by
  unfold isDescLenIssue descShortMsg
  rw [List.append_assoc]
  exact prefixB_append_true _ (by decide)

theorem isDescLenIssue_descLongMsg (n : Nat) : isDescLenIssue (descLongMsg n) = true := by
  unfold isDescLenIssue descLongMsg
  rw [List.append_assoc]
  exact prefixB_append_true _ (by decide)

theorem isOgMissingIssue_ogMissingMsg (l : List (List Char)) :
    isOgMissingIssue (ogMissingMsg l) = true :=
  prefixB_append_true _ (by decide)

theorem isTwMissingIssue_twMissingMsg (l : List (List Char)) :
    isTwMissingIssue (twMissingMsg l) = true :=
  prefixB_append_true _ (by decide)

theorem isTitleLenIssue_descShortMsg (n : Nat) : isTitleLenIssue (descShortMsg n) = false := by
  unfold isTitleLenIssue descShortMsg
  rw [List.append_assoc]
  exact prefixB_append_false _ (by decide) (by decide)

theorem isTitleLenIssue_descLongMsg (n : Nat) : isTitleLenIssue (descLongMsg n) = false := by
  unfold isTitleLenIssue descLongMsg
  rw [List.append_assoc]
  exact prefixB_append_false _ (by decide) (by decide)

theorem isTitleLenIssue_ogMissingMsg (l : List (List Char)) :
    isTitleLenIssue (ogMissingMsg l) = false :=
  prefixB_append_false _ (by decide) (by decide)

theorem isTitleLenIssue_twMissingMsg (l : List (List Char)) :
    isTitleLenIssue (twMissingMsg l) = false :=
  prefixB_append_false _ (by decide) (by decide)

theorem isDescLenIssue_titleShortMsg (n : Nat) : isDescLenIssue (titleShortMsg n) = false := by
  unfold isDescLenIssue titleShortMsg
  rw [List.append_assoc]
  exact prefixB_append_false _ (by decide) (by decide)

theorem isDescLenIssue_titleLongMsg (n : Nat) : isDescLenIssue (titleLongMsg n) = false := by
  unfold isDescLenIssue titleLongMsg
  rw [List.append_assoc]
  exact prefixB_append_false _ (by decide) (by decide)

theorem isDescLenIssue_ogMissingMsg (l : List (List Char)) :
    isDescLenIssue (ogMissingMsg l) = false :=
  prefixB_append_false _ (by decide) (by decide)

theorem isDescLenIssue_twMissingMsg (l : List (List Char)) :
    isDescLenIssue (twMissingMsg l) = false :=
  prefixB_append_false _ (by decide) (by decide)

theorem isOgMissingIssue_titleShortMsg (n : Nat) : isOgMissingIssue (titleShortMsg n) = false := by
  unfold isOgMissingIssue titleShortMsg
  rw [List.append_assoc]
  exact prefixB_append_false _ (by decide) (by decide)

theorem isOgMissingIssue_titleLongMsg (n : Nat) : isOgMissingIssue (titleLongMsg n) = false := by
  unfold isOgMissingIssue titleLongMsg
  rw [List.append_assoc]
  exact prefixB_append_false _ (by decide) (by decide)

theorem isOgMissingIssue_descShortMsg (n : Nat) : isOgMissingIssue (descShortMsg n) = false := by
  unfold isOgMissingIssue descShortMsg
  rw [List.append_assoc]
  exact prefixB_append_false _ (by decide) (by decide)

theorem isOgMissingIssue_descLongMsg (n : Nat) : isOgMissingIssue (descLongMsg n) = false := by
  unfold isOgMissingIssue descLongMsg
  rw [List.append_assoc]
  exact prefixB_append_false _ (by decide) (by decide)

theorem isOgMissingIssue_twMissingMsg (l : List (List Char)) :
    isOgMissingIssue (twMissingMsg l) = false :=
  prefixB_append_false _ (by decide) (by decide)

theorem isTwMissingIssue_titleShortMsg (n : Nat) : isTwMissingIssue (titleShortMsg n) = false := by
  unfold isTwMissingIssue titleShortMsg
  rw [List.append_assoc]
  exact prefixB_append_false _ (by decide) (by decide)

theorem isTwMissingIssue_titleLongMsg (n : Nat) : isTwMissingIssue (titleLongMsg n) = false := by
  unfold isTwMissingIssue titleLongMsg
  rw [List.append_assoc]
  exact prefixB_append_false _ (by decide) (by decide)

theorem isTwMissingIssue_descShortMsg (n : Nat) : isTwMissingIssue (descShortMsg n) = false := by
  unfold isTwMissingIssue descShortMsg
  rw [List.append_assoc]
  exact prefixB_append_false _ (by decide) (by decide)

theorem isTwMissingIssue_descLongMsg (n : Nat) : isTwMissingIssue (descLongMsg n) = false := by
  unfold isTwMissingIssue descLongMsg
  rw [List.append_assoc]
  exact prefixB_append_false _ (by decide) (by decide)

theorem isTwMissingIssue_ogMissingMsg (l : List (List Char)) :
    isTwMissingIssue (ogMissingMsg l) = false :=
  prefixB_append_false _ (by decide) (by decide)

theorem isCanonicalMissingIssue_titleShortMsg (n : Nat) :
    isCanonicalMissingIssue (titleShortMsg n) = false := by
  unfold isCanonicalMissingIssue titleShortMsg
  rw [List.append_assoc]
  exact eqB_append_false _ (by decide)

theorem isCanonicalMissingIssue_titleLongMsg (n : Nat) :
    isCanonicalMissingIssue (titleLongMsg n) = false := by
  unfold isCanonicalMissingIssue titleLongMsg
  rw [List.append_assoc]
  exact eqB_append_false _ (by decide)

theorem isCanonicalMissingIssue_descShortMsg (n : Nat) :
    isCanonicalMissingIssue (descShortMsg n) = false := by
  unfold isCanonicalMissingIssue descShortMsg
  rw [List.append_assoc]
  exact eqB_append_false _ (by decide)

theorem isCanonicalMissingIssue_descLongMsg (n : Nat) :
    isCanonicalMissingIssue (descLongMsg n) = false := by
  unfold isCanonicalMissingIssue descLongMsg
  rw [List.append_assoc]
  exact eqB_append_false _ (by decide)

theorem isCanonicalMissingIssue_ogMissingMsg (l : List (List Char)) :
    isCanonicalMissingIssue (ogMissingMsg l) = false :=
  eqB_append_false _ (by decide)

theorem isCanonicalMissingIssue_twMissingMsg (l : List (List Char)) :
    isCanonicalMissingIssue (twMissingMsg l) = false :=
  eqB_append_false _ (by decide)

theorem isTitleMissingIssue_titleShortMsg (n : Nat) :
    isTitleMissingIssue (titleShortMsg n) = false := by
  unfold isTitleMissingIssue titleShortMsg
  rw [List.append_assoc]
  exact eqB_append_false _ (by decide)

theorem isTitleMissingIssue_titleLongMsg (n : Nat) :
    isTitleMissingIssue (titleLongMsg n) = false := by
  unfold isTitleMissingIssue titleLongMsg
  rw [List.append_assoc]
  exact eqB_append_false _ (by decide)

theorem isTitleMissingIssue_descShortMsg (n : Nat) :
    isTitleMissingIssue (descShortMsg n) = false := by
  unfold isTitleMissingIssue descShortMsg
  rw [List.append_assoc]
  exact eqB_append_false _ (by decide)

theorem isTitleMissingIssue_descLongMsg (n : Nat) :
    isTitleMissingIssue (descLongMsg n) = false := by
  unfold isTitleMissingIssue descLongMsg
  rw [List.append_assoc]
  exact eqB_append_false _ (by decide)

theorem isTitleMissingIssue_ogMissingMsg (l : List (List Char)) :
    isTitleMissingIssue (ogMissingMsg l) = false :=
  eqB_append_false _ (by decide)

theorem isTitleMissingIssue_twMissingMsg (l : List (List Char)) :
    isTitleMissingIssue (twMissingMsg l) = false :=
  eqB_append_false _ (by decide)

theorem isDescMissingIssue_titleShortMsg (n : Nat) :
    isDescMissingIssue (titleShortMsg n) = false := by
  unfold isDescMissingIssue titleShortMsg
  rw [List.append_assoc]
  exact eqB_append_false _ (by decide)

theorem isDescMissingIssue_titleLongMsg (n : Nat) :
    isDescMissingIssue (titleLongMsg n) = false := by
  unfold isDescMissingIssue titleLongMsg
  rw [List.append_assoc]
  exact eqB_append_false _ (by decide)

theorem isDescMissingIssue_descShortMsg (n : Nat) :
    isDescMissingIssue (descShortMsg n) = false := by
  unfold isDescMissingIssue descShortMsg
  rw [List.append_assoc]
  exact eqB_append_false _ (by decide)

theorem isDescMissingIssue_descLongMsg (n : Nat) :
    isDescMissingIssue (descLongMsg n) = false := by
  unfold isDescMissingIssue descLongMsg
  rw [List.append_assoc]
  exact eqB_append_false _ (by decide)

theorem isDescMissingIssue_ogMissingMsg (l : List (List Char)) :
    isDescMissingIssue (ogMissingMsg l) = false :=
  eqB_append_false _ (by decide)

theorem isDescMissingIssue_twMissingMsg (l : List (List Char)) :
    isDescMissingIssue (twMissingMsg l) = false :=
  eqB_append_false _ (by decide)

/-! ### Block-level issue counts -/

theorem countP_titleLengthIssues_self (t : List Char) :
    (titleLengthIssues t).countP isTitleLenIssue = if t.length < 30 ∨ 60 < t.length then 1 else 0 := by
  unfold titleLengthIssues
  by_cases h1 : t.length < 30
  · simp [h1, List.countP_cons, List.countP_nil, isTitleLenIssue_titleShortMsg]
  · by_cases h2 : 60 < t.length
    · simp [h1, h2, List.countP_cons, List.countP_nil, isTitleLenIssue_titleLongMsg]
    · simp [h1, h2]

theorem countP_titleLengthIssues_zero (t : List Char) (d : List Char → Bool)
    (hs : ∀ n, d (titleShortMsg n) = false) (hl : ∀ n, d (titleLongMsg n) = false) :
    (titleLengthIssues t).countP d = 0 := by
  unfold titleLengthIssues
  by_cases h1 : t.length < 30
  · simp [h1, List.countP_cons, List.countP_nil, hs]
  · by_cases h2 : 60 < t.length
    · simp [h1, h2, List.countP_cons, List.countP_nil, hl]
    · simp [h1, h2]

theorem countP_descLengthIssues_self (d : List Char) :
    (descLengthIssues d).countP isDescLenIssue
      = if d.length < 120 ∨ 160 < d.length then 1 else 0 := by
  unfold descLengthIssues
  by_cases h1 : d.length < 120
  · simp [h1, List.countP_cons, List.countP_nil, isDescLenIssue_descShortMsg]
  · by_cases h2 : 160 < d.length
    · simp [h1, h2, List.countP_cons, List.countP_nil, isDescLenIssue_descLongMsg]
    · simp [h1, h2]

theorem countP_descLengthIssues_zero (t : List Char) (d : List Char → Bool)
    (hs : ∀ n, d (descShortMsg n) = false) (hl : ∀ n, d (descLongMsg n) = false) :
    (descLengthIssues t).countP d = 0 := by
  unfold descLengthIssues
  by_cases h1 : t.length < 120
  · simp [h1, List.countP_cons, List.countP_nil, hs]
  · by_cases h2 : 160 < t.length
    · simp [h1, h2, List.countP_cons, List.countP_nil, hl]
    · simp [h1, h2]

theorem filter_not_isEmpty_eq_all (p : List Char → Bool) (l : List (List Char)) :
    (l.filter fun x => !(p x)).isEmpty = l.all p := by
  induction l with
  | nil => rfl
  | cons x xs ih =>
    cases hx : p x <;> simp [List.filter_cons, hx, ih]

theorem countP_five_blocks (a b c d e : List (List Char)) (p : List Char → Bool) :
    (a ++ b ++ c ++ d ++ e).countP p
      = a.countP p + b.countP p + c.countP p + d.countP p + e.countP p := by
  simp [List.countP_append]
  omega

theorem countP_titleLengthIssues_descLen (t : List Char) :
    (titleLengthIssues t).countP isDescLenIssue = 0 :=
  countP_titleLengthIssues_zero t _ isDescLenIssue_titleShortMsg isDescLenIssue_titleLongMsg

theorem countP_titleLengthIssues_og (t : List Char) :
    (titleLengthIssues t).countP isOgMissingIssue = 0 :=
  countP_titleLengthIssues_zero t _ isOgMissingIssue_titleShortMsg isOgMissingIssue_titleLongMsg

theorem countP_titleLengthIssues_tw (t : List Char) :
    (titleLengthIssues t).countP isTwMissingIssue = 0 :=
  countP_titleLengthIssues_zero t _ isTwMissingIssue_titleShortMsg isTwMissingIssue_titleLongMsg

theorem countP_titleLengthIssues_canon (t : List Char) :
    (titleLengthIssues t).countP isCanonicalMissingIssue = 0 :=
  countP_titleLengthIssues_zero t _ isCanonicalMissingIssue_titleShortMsg
    isCanonicalMissingIssue_titleLongMsg

theorem countP_titleLengthIssues_tm (t : List Char) :
    (titleLengthIssues t).countP isTitleMissingIssue = 0 :=
  countP_titleLengthIssues_zero t _ isTitleMissingIssue_titleShortMsg
    isTitleMissingIssue_titleLongMsg

theorem countP_titleLengthIssues_dm (t : List Char) :
    (titleLengthIssues t).countP isDescMissingIssue = 0 :=
  countP_titleLengthIssues_zero t _ isDescMissingIssue_titleShortMsg
    isDescMissingIssue_titleLongMsg

theorem countP_descLengthIssues_titleLen (t : List Char) :
    (descLengthIssues t).countP isTitleLenIssue = 0 :=
  countP_descLengthIssues_zero t _ isTitleLenIssue_descShortMsg isTitleLenIssue_descLongMsg

theorem countP_descLengthIssues_og (t : List Char) :
    (descLengthIssues t).countP isOgMissingIssue = 0 :=
  countP_descLengthIssues_zero t _ isOgMissingIssue_descShortMsg isOgMissingIssue_descLongMsg

theorem countP_descLengthIssues_tw (t : List Char) :
    (descLengthIssues t).countP isTwMissingIssue = 0 :=
  countP_descLengthIssues_zero t _ isTwMissingIssue_descShortMsg isTwMissingIssue_descLongMsg

theorem countP_descLengthIssues_canon (t : List Char) :
    (descLengthIssues t).countP isCanonicalMissingIssue = 0 :=
  countP_descLengthIssues_zero t _ isCanonicalMissingIssue_descShortMsg
    isCanonicalMissingIssue_descLongMsg

theorem countP_descLengthIssues_tm (t : List Char) :
    (descLengthIssues t).countP isTitleMissingIssue = 0 :=
  countP_descLengthIssues_zero t _ isTitleMissingIssue_descShortMsg
    isTitleMissingIssue_descLongMsg

theorem countP_descLengthIssues_dm (t : List Char) :
    (descLengthIssues t).countP isDescMissingIssue = 0 :=
  countP_descLengthIssues_zero t _ isDescMissingIssue_descShortMsg
    isDescMissingIssue_descLongMsg

theorem length_titleLengthIssues (t : List Char) :
    (titleLengthIssues t).length = if t.length < 30 ∨ 60 < t.length then 1 else 0 := by
  unfold titleLengthIssues
  by_cases h1 : t.length < 30
  · simp [h1]
  · by_cases h2 : 60 < t.length <;> simp [h1, h2]

theorem length_descLengthIssues (t : List Char) :
    (descLengthIssues t).length = if t.length < 120 ∨ 160 < t.length then 1 else 0 := by
  unfold descLengthIssues
  by_cases h1 : t.length < 120
  · simp [h1]
  · by_cases h2 : 160 < t.length <;> simp [h1, h2]

/-! ### Decomposition equations for the normalizer record -/

theorem cmtd_issues (ms : List MetaEntry) (out : SeoOutput) :
    (checkMetaTagsDynamic ms out).issues =
      (match ms.find? (fun m => decide (m.name = some (strToList "title"))
          || decide (m.hid = some (strToList "title"))) with
       | some tm => titleLengthIssues tm.content
       | none => []) ++
      (match ms.find? (fun m => decide (m.name = some (strToList "description"))
          || decide (m.hid = some (strToList "description"))) with
       | some dm => descLengthIssues dm.content
       | none => []) ++
      (if (requiredOgTags.filter fun t => !(memList t (collectOgTags ms).1)).isEmpty then []
       else [ogMissingMsg (requiredOgTags.filter fun t => !(memList t (collectOgTags ms).1))]) ++
      (if (requiredTwitterTags.filter fun t => !(memList t (collectTwitterTags ms))).isEmpty then []
       else [twMissingMsg (requiredTwitterTags.filter fun t => !(memList t (collectTwitterTags ms)))]) ++
      (if (match out.link with
           | some ls => ls.any fun l => decide (l.rel = some (strToList "canonical"))
           | none => false) then [] else [canonicalMissingLit]) := rfl

theorem cmtd_title (ms : List MetaEntry) (out : SeoOutput) :
    (checkMetaTagsDynamic ms out).title =
      (ms.find? (fun m => decide (m.name = some (strToList "title"))
        || decide (m.hid = some (strToList "title")))).map (·.content) := rfl

theorem cmtd_description (ms : List MetaEntry) (out : SeoOutput) :
    (checkMetaTagsDynamic ms out).description =
      (ms.find? (fun m => decide (m.name = some (strToList "description"))
        || decide (m.hid = some (strToList "description")))).map (·.content) := rfl

theorem cmtd_ogTags (ms : List MetaEntry) (out : SeoOutput) :
    (checkMetaTagsDynamic ms out).ogTags = (collectOgTags ms).1 := rfl

theorem cmtd_twitterTags (ms : List MetaEntry) (out : SeoOutput) :
    (checkMetaTagsDynamic ms out).twitterTags = collectTwitterTags ms := rfl

theorem cmtd_canonical (ms : List MetaEntry) (out : SeoOutput) :
    (checkMetaTagsDynamic ms out).canonical =
      (match out.link with
       | some ls => ls.any fun l => decide (l.rel = some (strToList "canonical"))
       | none => false) := rfl

theorem countP_ifBlock_zero (c : Bool) (msg : List Char) (d : List Char → Bool)
    (h : d msg = false) : (if c then [] else [msg]).countP d = 0 := by
  cases c <;> simp [h, List.countP_cons, List.countP_nil]

theorem countP_ifBlock_self (c : Bool) (msg : List Char) (d : List Char → Bool)
    (h : d msg = true) : (if c then [] else [msg]).countP d = if c then 0 else 1 := by
  cases c <;> simp [h, List.countP_cons, List.countP_nil]

theorem length_ifBlock (c : Bool) (msg : List Char) :
    (if c then [] else [msg]).length = if c then 0 else 1 := by
  cases c <;> simp

theorem countP_titleBlock_zero (o : Option MetaEntry) (d : List Char → Bool)
    (hz : ∀ t, (titleLengthIssues t).countP d = 0) :
    (match o with
     | some tm => titleLengthIssues tm.content
     | none => ([] : List (List Char))).countP d = 0 := by
  cases o <;> simp [hz]

theorem countP_titleBlock_self (o : Option MetaEntry) :
    (match o with
     | some tm => titleLengthIssues tm.content
     | none => ([] : List (List Char))).countP isTitleLenIssue
      = (match o.map (·.content) with
         | some t => if t.length < 30 ∨ 60 < t.length then 1 else 0
         | none => 0) := by
  cases o <;> simp [countP_titleLengthIssues_self]

theorem countP_descBlock_zero (o : Option MetaEntry) (d : List Char → Bool)
    (hz : ∀ t, (descLengthIssues t).countP d = 0) :
    (match o with
     | some dm => descLengthIssues dm.content
     | none => ([] : List (List Char))).countP d = 0 := by
  cases o <;> simp [hz]

theorem countP_descBlock_self (o : Option MetaEntry) :
    (match o with
     | some dm => descLengthIssues dm.content
     | none => ([] : List (List Char))).countP isDescLenIssue
      = (match o.map (·.content) with
         | some t => if t.length < 120 ∨ 160 < t.length then 1 else 0
         | none => 0) := by
  cases o <;> simp [countP_descLengthIssues_self]

theorem length_titleBlock (o : Option MetaEntry) :
    (match o with
     | some tm => titleLengthIssues tm.content
     | none => ([] : List (List Char))).length
      = (match o.map (·.content) with
         | some t => if t.length < 30 ∨ 60 < t.length then 1 else 0
         | none => 0) := by
  cases o <;> simp [length_titleLengthIssues]

theorem length_descBlock (o : Option MetaEntry) :
    (match o with
     | some dm => descLengthIssues dm.content
     | none => ([] : List (List Char))).length
      = (match o.map (·.content) with
         | some t => if t.length < 120 ∨ 160 < t.length then 1 else 0
         | none => 0) := by
  cases o <;> simp [length_descLengthIssues]

theorem checkMetaTagsDynamic_counts (ms : List MetaEntry) (out : SeoOutput) :
    ((checkMetaTagsDynamic ms out).issues.countP isTitleLenIssue =
      (match (checkMetaTagsDynamic ms out).title with
       | some t => if t.length < 30 ∨ 60 < t.length then 1 else 0
       | none => 0)) ∧
    ((checkMetaTagsDynamic ms out).issues.countP isDescLenIssue =
      (match (checkMetaTagsDynamic ms out).description with
       | some d => if d.length < 120 ∨ 160 < d.length then 1 else 0
       | none => 0)) ∧
    ((checkMetaTagsDynamic ms out).issues.countP isOgMissingIssue =
      (if requiredOgTags.all (fun t => memList t (checkMetaTagsDynamic ms out).ogTags)
       then 0 else 1)) ∧
    ((checkMetaTagsDynamic ms out).issues.countP isTwMissingIssue =
      (if requiredTwitterTags.all (fun t => memList t (checkMetaTagsDynamic ms out).twitterTags)
       then 0 else 1)) ∧
    ((checkMetaTagsDynamic ms out).issues.countP isCanonicalMissingIssue =
      (if (checkMetaTagsDynamic ms out).canonical then 0 else 1)) ∧
    ((checkMetaTagsDynamic ms out).issues.countP isTitleMissingIssue = 0) ∧
    ((checkMetaTagsDynamic ms out).issues.countP isDescMissingIssue = 0) ∧
    ((checkMetaTagsDynamic ms out).issues.length =
      (match (checkMetaTagsDynamic ms out).title with
       | some t => if t.length < 30 ∨ 60 < t.length then 1 else 0
       | none => 0)
      + (match (checkMetaTagsDynamic ms out).description with
         | some d => if d.length < 120 ∨ 160 < d.length then 1 else 0
         | none => 0)
      + (if requiredOgTags.all (fun t => memList t (checkMetaTagsDynamic ms out).ogTags)
         then 0 else 1)
      + (if requiredTwitterTags.all (fun t => memList t (checkMetaTagsDynamic ms out).twitterTags)
         then 0 else 1)
      + (if (checkMetaTagsDynamic ms out).canonical then 0 else 1)) := by
  have hog := filter_not_isEmpty_eq_all (fun t => memList t (collectOgTags ms).1) requiredOgTags
  have htw := filter_not_isEmpty_eq_all (fun t => memList t (collectTwitterTags ms)) requiredTwitterTags
  refine ⟨?_, ?_, ?_, ?_, ?_, ?_, ?_, ?_⟩
  · rw [cmtd_issues, cmtd_title, countP_five_blocks, countP_titleBlock_self,
      countP_descBlock_zero _ _ countP_descLengthIssues_titleLen,
      countP_ifBlock_zero _ _ _ (isTitleLenIssue_ogMissingMsg _),
      countP_ifBlock_zero _ _ _ (isTitleLenIssue_twMissingMsg _),
      countP_ifBlock_zero _ _ _ (show isTitleLenIssue canonicalMissingLit = false by decide)]
    omega
  · rw [cmtd_issues, cmtd_description, countP_five_blocks, countP_descBlock_self,
      countP_titleBlock_zero _ _ countP_titleLengthIssues_descLen,
      countP_ifBlock_zero _ _ _ (isDescLenIssue_ogMissingMsg _),
      countP_ifBlock_zero _ _ _ (isDescLenIssue_twMissingMsg _),
      countP_ifBlock_zero _ _ _ (show isDescLenIssue canonicalMissingLit = false by decide)]
    omega
  · rw [cmtd_issues, cmtd_ogTags, countP_five_blocks,
      countP_titleBlock_zero _ _ countP_titleLengthIssues_og,
      countP_descBlock_zero _ _ countP_descLengthIssues_og,
      countP_ifBlock_self _ _ _ (isOgMissingIssue_ogMissingMsg _),
      countP_ifBlock_zero _ _ _ (isOgMissingIssue_twMissingMsg _),
      countP_ifBlock_zero _ _ _ (show isOgMissingIssue canonicalMissingLit = false by decide),
      hog]
    omega
  · rw [cmtd_issues, cmtd_twitterTags, countP_five_blocks,
      countP_titleBlock_zero _ _ countP_titleLengthIssues_tw,
      countP_descBlock_zero _ _ countP_descLengthIssues_tw,
      countP_ifBlock_zero _ _ _ (isTwMissingIssue_ogMissingMsg _),
      countP_ifBlock_self _ _ _ (isTwMissingIssue_twMissingMsg _),
      countP_ifBlock_zero _ _ _ (show isTwMissingIssue canonicalMissingLit = false by decide),
      htw]
    omega
  · rw [cmtd_issues, cmtd_canonical, countP_five_blocks,
      countP_titleBlock_zero _ _ countP_titleLengthIssues_canon,
      countP_descBlock_zero _ _ countP_descLengthIssues_canon,
      countP_ifBlock_zero _ _ _ (isCanonicalMissingIssue_ogMissingMsg _),
      countP_ifBlock_zero _ _ _ (isCanonicalMissingIssue_twMissingMsg _),
      countP_ifBlock_self _ _ _ (show isCanonicalMissingIssue canonicalMissingLit = true by decide)]
    omega
  · rw [cmtd_issues, countP_five_blocks,
      countP_titleBlock_zero _ _ countP_titleLengthIssues_tm,
      countP_descBlock_zero _ _ countP_descLengthIssues_tm,
      countP_ifBlock_zero _ _ _ (isTitleMissingIssue_ogMissingMsg _),
      countP_ifBlock_zero _ _ _ (isTitleMissingIssue_twMissingMsg _),
      countP_ifBlock_zero _ _ _ (show isTitleMissingIssue canonicalMissingLit = false by decide)]
  · rw [cmtd_issues, countP_five_blocks,
      countP_titleBlock_zero _ _ countP_titleLengthIssues_dm,
      countP_descBlock_zero _ _ countP_descLengthIssues_dm,
      countP_ifBlock_zero _ _ _ (isDescMissingIssue_ogMissingMsg _),
      countP_ifBlock_zero _ _ _ (isDescMissingIssue_twMissingMsg _),
      countP_ifBlock_zero _ _ _ (show isDescMissingIssue canonicalMissingLit = false by decide)]
  · rw [cmtd_issues, cmtd_title, cmtd_description, cmtd_ogTags, cmtd_twitterTags, cmtd_canonical]
    simp only [List.length_append]
    rw [length_titleBlock, length_descBlock, length_ifBlock, length_ifBlock, length_ifBlock,
      hog, htw]

theorem countP_titleBlockS_zero (o : Option (List Char)) (d : List Char → Bool)
    (hz : ∀ t, (titleLengthIssues t).countP d = 0) (hlit : d titleMissingLit = false) :
    (match o with
     | some t => titleLengthIssues t
     | none => [titleMissingLit]).countP d = 0 := by
  cases o <;> simp [hz, hlit, List.countP_cons, List.countP_nil]

theorem countP_titleBlockS_self (o : Option (List Char)) :
    (match o with
     | some t => titleLengthIssues t
     | none => [titleMissingLit]).countP isTitleLenIssue
      = (match o with
         | some t => if t.length < 30 ∨ 60 < t.length then 1 else 0
         | none => 0) := by
  cases o <;> simp [countP_titleLengthIssues_self, List.countP_cons, List.countP_nil,
    show isTitleLenIssue titleMissingLit = false by decide]

theorem countP_titleBlockS_tm (o : Option (List Char)) :
    (match o with
     | some t => titleLengthIssues t
     | none => [titleMissingLit]).countP isTitleMissingIssue
      = if o.isNone then 1 else 0 := by
  cases o <;> simp [countP_titleLengthIssues_tm, List.countP_cons, List.countP_nil,
    show isTitleMissingIssue titleMissingLit = true by decide]

theorem length_titleBlockS (o : Option (List Char)) :
    (match o with
     | some t => titleLengthIssues t
     | none => [titleMissingLit]).length
      = (match o with
         | some t => if t.length < 30 ∨ 60 < t.length then 1 else 0
         | none => 0) + (if o.isNone then 1 else 0) := by
  cases o <;> simp [length_titleLengthIssues]

theorem countP_descBlockS_zero (o : Option (List Char)) (d : List Char → Bool)
    (hz : ∀ t, (descLengthIssues t).countP d = 0) (hlit : d descMissingLit = false) :
    (match o with
     | some t => descLengthIssues t
     | none => [descMissingLit]).countP d = 0 := by
  cases o <;> simp [hz, hlit, List.countP_cons, List.countP_nil]

theorem countP_descBlockS_self (o : Option (List Char)) :
    (match o with
     | some t => descLengthIssues t
     | none => [descMissingLit]).countP isDescLenIssue
      = (match o with
         | some t => if t.length < 120 ∨ 160 < t.length then 1 else 0
         | none => 0) := by
  cases o <;> simp [countP_descLengthIssues_self, List.countP_cons, List.countP_nil,
    show isDescLenIssue descMissingLit = false by decide]

theorem countP_descBlockS_dm (o : Option (List Char)) :
    (match o with
     | some t => descLengthIssues t
     | none => [descMissingLit]).countP isDescMissingIssue
      = if o.isNone then 1 else 0 := by
  cases o <;> simp [countP_descLengthIssues_dm, List.countP_cons, List.countP_nil,
    show isDescMissingIssue descMissingLit = true by decide]

theorem length_descBlockS (o : Option (List Char)) :
    (match o with
     | some t => descLengthIssues t
     | none => [descMissingLit]).length
      = (match o with
         | some t => if t.length < 120 ∨ 160 < t.length then 1 else 0
         | none => 0) + (if o.isNone then 1 else 0) := by
  cases o <;> simp [length_descLengthIssues]
theorem cmts_title (content : List Char) :
    (checkMetaTagsStatic content).title
      = firstMatch (matchScalarFrom (strToList "title:")) content := by
  simp only [checkMetaTagsStatic]
  split <;> rfl

theorem cmts_description (content : List Char) :
    (checkMetaTagsStatic content).description
      = firstMatch (matchScalarFrom (strToList "description:")) content := by
  simp only [checkMetaTagsStatic]
  split <;> rfl

theorem cmts_issues_gen (content : List Char)
    (h : containsSub (strToList "generateSEO(") content = true) :
    (checkMetaTagsStatic content).issues =
      (match firstMatch (matchScalarFrom (strToList "title:")) content with
       | some t => titleLengthIssues t
       | none => [titleMissingLit]) ++
      (match firstMatch (matchScalarFrom (strToList "description:")) content with
       | some d => descLengthIssues d
       | none => [descMissingLit]) := by
  simp only [checkMetaTagsStatic, h, if_true]

theorem cmts_ogTags_gen (content : List Char)
    (h : containsSub (strToList "generateSEO(") content = true) :
    (checkMetaTagsStatic content).ogTags =
      [strToList "title", strToList "description", strToList "image",
       strToList "url", strToList "type", strToList "site_name"] := by
  simp only [checkMetaTagsStatic, h, if_true]

theorem cmts_twitterTags_gen (content : List Char)
    (h : containsSub (strToList "generateSEO(") content = true) :
    (checkMetaTagsStatic content).twitterTags =
      [strToList "card", strToList "title", strToList "description",
       strToList "image", strToList "site"] := by
  simp only [checkMetaTagsStatic, h, if_true]

theorem cmts_canonical_gen (content : List Char)
    (h : containsSub (strToList "generateSEO(") content = true) :
    (checkMetaTagsStatic content).canonical = true := by
  simp only [checkMetaTagsStatic, h, if_true]

theorem cmts_issues_nogen (content : List Char)
    (h : containsSub (strToList "generateSEO(") content = false) :
    (checkMetaTagsStatic content).issues =
      (match firstMatch (matchScalarFrom (strToList "title:")) content with
       | some t => titleLengthIssues t
       | none => [titleMissingLit]) ++
      (match firstMatch (matchScalarFrom (strToList "description:")) content with
       | some d => descLengthIssues d
       | none => [descMissingLit]) ++
      (if (requiredOgTags.filter fun t => !(memList t (staticOgDetection content))).isEmpty
       then []
       else [ogMissingMsg (requiredOgTags.filter fun t => !(memList t (staticOgDetection content)))]) ++
      (if (requiredTwitterTags.filter fun t => !(memList t (staticTwitterDetection content))).isEmpty
       then []
       else [twMissingMsg
         (requiredTwitterTags.filter fun t => !(memList t (staticTwitterDetection content)))]) ++
      (if (containsSub (strToList "canonical:") content ||
           containsSub (strToList "link.*rel.*canonical") content)
       then [] else [canonicalMissingLit]) := by
  simp only [checkMetaTagsStatic, h, Bool.false_eq_true, if_false]

theorem cmts_ogTags_nogen (content : List Char)
    (h : containsSub (strToList "generateSEO(") content = false) :
    (checkMetaTagsStatic content).ogTags = staticOgDetection content := by
  simp only [checkMetaTagsStatic, h, Bool.false_eq_true, if_false]

theorem cmts_twitterTags_nogen (content : List Char)
    (h : containsSub (strToList "generateSEO(") content = false) :
    (checkMetaTagsStatic content).twitterTags = staticTwitterDetection content := by
  simp only [checkMetaTagsStatic, h, Bool.false_eq_true, if_false]

theorem cmts_canonical_nogen (content : List Char)
    (h : containsSub (strToList "generateSEO(") content = false) :
    (checkMetaTagsStatic content).canonical =
      (containsSub (strToList "canonical:") content ||
       containsSub (strToList "link.*rel.*canonical") content) := by
  simp only [checkMetaTagsStatic, h, Bool.false_eq_true, if_false]

theorem countP_titleBlockS_descLen (o : Option (List Char)) :
    (match o with
     | some t => titleLengthIssues t
     | none => [titleMissingLit]).countP isDescLenIssue = 0 :=
  countP_titleBlockS_zero o _ countP_titleLengthIssues_descLen (by decide)

theorem countP_titleBlockS_og (o : Option (List Char)) :
    (match o with
     | some t => titleLengthIssues t
     | none => [titleMissingLit]).countP isOgMissingIssue = 0 :=
  countP_titleBlockS_zero o _ countP_titleLengthIssues_og (by decide)

theorem countP_titleBlockS_tw (o : Option (List Char)) :
    (match o with
     | some t => titleLengthIssues t
     | none => [titleMissingLit]).countP isTwMissingIssue = 0 :=
  countP_titleBlockS_zero o _ countP_titleLengthIssues_tw (by decide)

theorem countP_titleBlockS_canon (o : Option (List Char)) :
    (match o with
     | some t => titleLengthIssues t
     | none => [titleMissingLit]).countP isCanonicalMissingIssue = 0 :=
  countP_titleBlockS_zero o _ countP_titleLengthIssues_canon (by decide)

theorem countP_titleBlockS_dm (o : Option (List Char)) :
    (match o with
     | some t => titleLengthIssues t
     | none => [titleMissingLit]).countP isDescMissingIssue = 0 :=
  countP_titleBlockS_zero o _ countP_titleLengthIssues_dm (by decide)

theorem countP_descBlockS_titleLen (o : Option (List Char)) :
    (match o with
     | some t => descLengthIssues t
     | none => [descMissingLit]).countP isTitleLenIssue = 0 :=
  countP_descBlockS_zero o _ countP_descLengthIssues_titleLen (by decide)

theorem countP_descBlockS_og (o : Option (List Char)) :
    (match o with
     | some t => descLengthIssues t
     | none => [descMissingLit]).countP isOgMissingIssue = 0 :=
  countP_descBlockS_zero o _ countP_descLengthIssues_og (by decide)

theorem countP_descBlockS_tw (o : Option (List Char)) :
    (match o with
     | some t => descLengthIssues t
     | none => [descMissingLit]).countP isTwMissingIssue = 0 :=
  countP_descBlockS_zero o _ countP_descLengthIssues_tw (by decide)

theorem countP_descBlockS_canon (o : Option (List Char)) :
    (match o with
     | some t => descLengthIssues t
     | none => [descMissingLit]).countP isCanonicalMissingIssue = 0 :=
  countP_descBlockS_zero o _ countP_descLengthIssues_canon (by decide)

theorem countP_descBlockS_tm (o : Option (List Char)) :
    (match o with
     | some t => descLengthIssues t
     | none => [descMissingLit]).countP isTitleMissingIssue = 0 :=
  countP_descBlockS_zero o _ countP_descLengthIssues_tm (by decide)

theorem checkMetaTagsStatic_counts (content : List Char) :
    ((checkMetaTagsStatic content).issues.countP isTitleLenIssue =
      (match (checkMetaTagsStatic content).title with
       | some t => if t.length < 30 ∨ 60 < t.length then 1 else 0
       | none => 0)) ∧
    ((checkMetaTagsStatic content).issues.countP isDescLenIssue =
      (match (checkMetaTagsStatic content).description with
       | some d => if d.length < 120 ∨ 160 < d.length then 1 else 0
       | none => 0)) ∧
    ((checkMetaTagsStatic content).issues.countP isOgMissingIssue =
      (if requiredOgTags.all (fun t => memList t (checkMetaTagsStatic content).ogTags)
       then 0 else 1)) ∧
    ((checkMetaTagsStatic content).issues.countP isTwMissingIssue =
      (if requiredTwitterTags.all (fun t => memList t (checkMetaTagsStatic content).twitterTags)
       then 0 else 1)) ∧
    ((checkMetaTagsStatic content).issues.countP isCanonicalMissingIssue =
      (if (checkMetaTagsStatic content).canonical then 0 else 1)) ∧
    ((checkMetaTagsStatic content).issues.countP isTitleMissingIssue =
      (if (checkMetaTagsStatic content).title.isNone then 1 else 0)) ∧
    ((checkMetaTagsStatic content).issues.countP isDescMissingIssue =
      (if (checkMetaTagsStatic content).description.isNone then 1 else 0)) ∧
    ((checkMetaTagsStatic content).issues.length =
      (match (checkMetaTagsStatic content).title with
       | some t => if t.length < 30 ∨ 60 < t.length then 1 else 0
       | none => 0)
      + (match (checkMetaTagsStatic content).description with
         | some d => if d.length < 120 ∨ 160 < d.length then 1 else 0
         | none => 0)
      + (if requiredOgTags.all (fun t => memList t (checkMetaTagsStatic content).ogTags)
         then 0 else 1)
      + (if requiredTwitterTags.all (fun t => memList t (checkMetaTagsStatic content).twitterTags)
         then 0 else 1)
      + (if (checkMetaTagsStatic content).canonical then 0 else 1)
      + (if (checkMetaTagsStatic content).title.isNone then 1 else 0)
      + (if (checkMetaTagsStatic content).description.isNone then 1 else 0)) := by
  by_cases hg : containsSub (strToList "generateSEO(") content = true
  · refine ⟨?_, ?_, ?_, ?_, ?_, ?_, ?_, ?_⟩
    · rw [cmts_issues_gen content hg, cmts_title, List.countP_append,
        countP_titleBlockS_self, countP_descBlockS_titleLen]
      omega
    · rw [cmts_issues_gen content hg, cmts_description, List.countP_append,
        countP_descBlockS_self, countP_titleBlockS_descLen]
      omega
    · rw [cmts_issues_gen content hg, cmts_ogTags_gen content hg, List.countP_append,
        countP_titleBlockS_og, countP_descBlockS_og]
      decide
    · rw [cmts_issues_gen content hg, cmts_twitterTags_gen content hg, List.countP_append,
        countP_titleBlockS_tw, countP_descBlockS_tw]
      decide
    · rw [cmts_issues_gen content hg, cmts_canonical_gen content hg, List.countP_append,
        countP_titleBlockS_canon, countP_descBlockS_canon]
      decide
    · rw [cmts_issues_gen content hg, cmts_title, List.countP_append,
        countP_titleBlockS_tm, countP_descBlockS_tm]
      omega
    · rw [cmts_issues_gen content hg, cmts_description, List.countP_append,
        countP_descBlockS_dm, countP_titleBlockS_dm]
      omega
    · rw [cmts_issues_gen content hg, cmts_title, cmts_description,
        cmts_ogTags_gen content hg, cmts_twitterTags_gen content hg,
        cmts_canonical_gen content hg, List.length_append,
        length_titleBlockS, length_descBlockS]
      simp only [show requiredOgTags.all (fun t => memList t [strToList "title",
          strToList "description", strToList "image", strToList "url", strToList "type",
          strToList "site_name"]) = true from by decide,
        show requiredTwitterTags.all (fun t => memList t [strToList "card", strToList "title",
          strToList "description", strToList "image", strToList "site"]) = true from by decide,
        if_true]
      omega
  · rw [Bool.not_eq_true] at hg
    have hogS := filter_not_isEmpty_eq_all
      (fun t => memList t (staticOgDetection content)) requiredOgTags
    have htwS := filter_not_isEmpty_eq_all
      (fun t => memList t (staticTwitterDetection content)) requiredTwitterTags
    refine ⟨?_, ?_, ?_, ?_, ?_, ?_, ?_, ?_⟩
    · rw [cmts_issues_nogen content hg, cmts_title, countP_five_blocks,
        countP_titleBlockS_self, countP_descBlockS_titleLen,
        countP_ifBlock_zero _ _ _ (isTitleLenIssue_ogMissingMsg _),
        countP_ifBlock_zero _ _ _ (isTitleLenIssue_twMissingMsg _),
        countP_ifBlock_zero _ _ _ (show isTitleLenIssue canonicalMissingLit = false by decide)]
      omega
    · rw [cmts_issues_nogen content hg, cmts_description, countP_five_blocks,
        countP_descBlockS_self, countP_titleBlockS_descLen,
        countP_ifBlock_zero _ _ _ (isDescLenIssue_ogMissingMsg _),
        countP_ifBlock_zero _ _ _ (isDescLenIssue_twMissingMsg _),
        countP_ifBlock_zero _ _ _ (show isDescLenIssue canonicalMissingLit = false by decide)]
      omega
    · rw [cmts_issues_nogen content hg, cmts_ogTags_nogen content hg, countP_five_blocks,
        countP_titleBlockS_og, countP_descBlockS_og,
        countP_ifBlock_self _ _ _ (isOgMissingIssue_ogMissingMsg _),
        countP_ifBlock_zero _ _ _ (isOgMissingIssue_twMissingMsg _),
        countP_ifBlock_zero _ _ _ (show isOgMissingIssue canonicalMissingLit = false by decide),
        hogS]
      omega
    · rw [cmts_issues_nogen content hg, cmts_twitterTags_nogen content hg, countP_five_blocks,
        countP_titleBlockS_tw, countP_descBlockS_tw,
        countP_ifBlock_zero _ _ _ (isTwMissingIssue_ogMissingMsg _),
        countP_ifBlock_self _ _ _ (isTwMissingIssue_twMissingMsg _),
        countP_ifBlock_zero _ _ _ (show isTwMissingIssue canonicalMissingLit = false by decide),
        htwS]
      omega
    · rw [cmts_issues_nogen content hg, cmts_canonical_nogen content hg, countP_five_blocks,
        countP_titleBlockS_canon, countP_descBlockS_canon,
        countP_ifBlock_zero _ _ _ (isCanonicalMissingIssue_ogMissingMsg _),
        countP_ifBlock_zero _ _ _ (isCanonicalMissingIssue_twMissingMsg _),
        countP_ifBlock_self _ _ _
          (show isCanonicalMissingIssue canonicalMissingLit = true by decide)]
      omega
    · rw [cmts_issues_nogen content hg, cmts_title, countP_five_blocks,
        countP_titleBlockS_tm, countP_descBlockS_tm,
        countP_ifBlock_zero _ _ _ (isTitleMissingIssue_ogMissingMsg _),
        countP_ifBlock_zero _ _ _ (isTitleMissingIssue_twMissingMsg _),
        countP_ifBlock_zero _ _ _ (show isTitleMissingIssue canonicalMissingLit = false by decide)]
      omega
    · rw [cmts_issues_nogen content hg, cmts_description, countP_five_blocks,
        countP_titleBlockS_dm, countP_descBlockS_dm,
        countP_ifBlock_zero _ _ _ (isDescMissingIssue_ogMissingMsg _),
        countP_ifBlock_zero _ _ _ (isDescMissingIssue_twMissingMsg _),
        countP_ifBlock_zero _ _ _ (show isDescMissingIssue canonicalMissingLit = false by decide)]
      omega
    · rw [cmts_issues_nogen content hg, cmts_title, cmts_description,
        cmts_ogTags_nogen content hg, cmts_twitterTags_nogen content hg,
        cmts_canonical_nogen content hg]
      simp only [List.length_append]
      rw [length_titleBlockS, length_descBlockS, length_ifBlock, length_ifBlock, length_ifBlock,
        hogS, htwS]
      omega

/-- C4 amended: in both normalizer paths each triggered condition contributes
exactly one issue string and the list contains nothing else (issues are
strictly additive): one per out-of-band title or description length, one
combined string per required field set with a missing member (not one per
missing field), one for a missing canonical link, and — in the static path
only — one for a missing title and one for a missing description; the dynamic
path emits no issue for a missing title or description entry. -/

theorem c4_amended_issue_accounting (content pageName : List Char)
    (seoOutput : Option SeoOutput) :
    ((checkMetaTags content pageName seoOutput).issues.countP isTitleLenIssue =
      (match (checkMetaTags content pageName seoOutput).title with
       | some t => if t.length < 30 ∨ 60 < t.length then 1 else 0
       | none => 0)) ∧
    ((checkMetaTags content pageName seoOutput).issues.countP isDescLenIssue =
      (match (checkMetaTags content pageName seoOutput).description with
       | some d => if d.length < 120 ∨ 160 < d.length then 1 else 0
       | none => 0)) ∧
    ((checkMetaTags content pageName seoOutput).issues.countP isOgMissingIssue =
      (if requiredOgTags.all
          (fun t => memList t (checkMetaTags content pageName seoOutput).ogTags)
       then 0 else 1)) ∧
    ((checkMetaTags content pageName seoOutput).issues.countP isTwMissingIssue =
      (if requiredTwitterTags.all
          (fun t => memList t (checkMetaTags content pageName seoOutput).twitterTags)
       then 0 else 1)) ∧
    ((checkMetaTags content pageName seoOutput).issues.countP isCanonicalMissingIssue =
      (if (checkMetaTags content pageName seoOutput).canonical then 0 else 1)) ∧
    ((checkMetaTags content pageName seoOutput).issues.countP isTitleMissingIssue =
      (if staticPath seoOutput && (checkMetaTags content pageName seoOutput).title.isNone
       then 1 else 0)) ∧
    ((checkMetaTags content pageName seoOutput).issues.countP isDescMissingIssue =
      (if staticPath seoOutput && (checkMetaTags content pageName seoOutput).description.isNone
       then 1 else 0)) ∧
    ((checkMetaTags content pageName seoOutput).issues.length =
      (checkMetaTags content pageName seoOutput).issues.countP isTitleLenIssue
      + (checkMetaTags content pageName seoOutput).issues.countP isDescLenIssue
      + (checkMetaTags content pageName seoOutput).issues.countP isOgMissingIssue
      + (checkMetaTags content pageName seoOutput).issues.countP isTwMissingIssue
      + (checkMetaTags content pageName seoOutput).issues.countP isCanonicalMissingIssue
      + (checkMetaTags content pageName seoOutput).issues.countP isTitleMissingIssue
      + (checkMetaTags content pageName seoOutput).issues.countP isDescMissingIssue) := by
  cases seoOutput with
  | none =>
    have hcm : checkMetaTags content pageName none = checkMetaTagsStatic content := rfl
    have hsp : staticPath (none : Option SeoOutput) = true := rfl
    obtain ⟨h1, h2, h3, h4, h5, h6, h7, h8⟩ := checkMetaTagsStatic_counts content
    rw [hcm, hsp]
    simp only [Bool.true_and]
    exact ⟨h1, h2, h3, h4, h5, h6, h7, by rw [h1, h2, h3, h4, h5, h6, h7, h8]⟩
  | some out =>
    cases hm : out.meta with
    | none =>
      have hcm : checkMetaTags content pageName (some out) = checkMetaTagsStatic content := by
        simp only [checkMetaTags, hm]
      have hsp : staticPath (some out) = true := by simp [staticPath, hm]
      obtain ⟨h1, h2, h3, h4, h5, h6, h7, h8⟩ := checkMetaTagsStatic_counts content
      rw [hcm, hsp]
      simp only [Bool.true_and]
      exact ⟨h1, h2, h3, h4, h5, h6, h7, by rw [h1, h2, h3, h4, h5, h6, h7, h8]⟩
    | some ms =>
      have hcm : checkMetaTags content pageName (some out) = checkMetaTagsDynamic ms out := by
        simp only [checkMetaTags, hm]
      have hsp : staticPath (some out) = false := by simp [staticPath, hm]
      obtain ⟨h1, h2, h3, h4, h5, h6, h7, h8⟩ := checkMetaTagsDynamic_counts ms out
      rw [hcm, hsp]
      simp only [Bool.false_and, Bool.false_eq_true, if_false]
      refine ⟨h1, h2, h3, h4, h5, h6, h7, ?_⟩
      rw [h1, h2, h3, h4, h5, h6, h7, h8]
      omega

/-- C4 counterexample: feed the dynamic path a sandbox output with an empty
`meta` array.  Title and description are then missing required fields, and all
four Open Graph and all four Twitter fields are missing, yet the issue list
has exactly three strings — one combined string per missing field set and one
for the canonical link — with no missing-title issue at all, refuting
"every missing required field contributes exactly one issue string in both
paths". -/
theorem c4_counterexample :
    (checkMetaTags [] [] (some ⟨some [], none, none⟩)).title = none ∧
    (checkMetaTags [] [] (some ⟨some [], none, none⟩)).ogTags = [] ∧
    (checkMetaTags [] [] (some ⟨some [], none, none⟩)).issues =
      [ogMissingMsg requiredOgTags, twMissingMsg requiredTwitterTags, canonicalMissingLit] ∧
    (checkMetaTags [] [] (some ⟨some [], none, none⟩)).issues.countP isTitleMissingIssue = 0 ∧
    (checkMetaTags [] [] (some ⟨some [], none, none⟩)).issues.countP isOgMissingIssue = 1 := by
  decide

/-- C5: length banding is a pure function of the string length in the
normalizer — a title shorter than 30 yields exactly one short-title issue, one
longer than 60 exactly one long-title issue, and otherwise no title-length
issue, identically for descriptions at 120/160; in particular a document with
title length 38 and description length 218 gets exactly one description-length
issue and zero title-length issues. -/
theorem c5_length_banding :
    (∀ t d : List Char,
      ((checkMetaTags [] []
          (some ⟨some [⟨some (strToList "title"), none, none, t⟩,
            ⟨some (strToList "description"), none, none, d⟩], none, none⟩)).issues.countP
          isTitleLenIssue
        = if t.length < 30 ∨ 60 < t.length then 1 else 0) ∧
      ((checkMetaTags [] []
          (some ⟨some [⟨some (strToList "title"), none, none, t⟩,
            ⟨some (strToList "description"), none, none, d⟩], none, none⟩)).issues.countP
          isDescLenIssue
        = if d.length < 120 ∨ 160 < d.length then 1 else 0)) ∧
    ((checkMetaTags [] []
        (some ⟨some [⟨some (strToList "title"), none, none, List.replicate 38 'a'⟩,
          ⟨some (strToList "description"), none, none, List.replicate 218 'b'⟩],
          none, none⟩)).issues.countP isTitleLenIssue = 0 ∧
     (checkMetaTags [] []
        (some ⟨some [⟨some (strToList "title"), none, none, List.replicate 38 'a'⟩,
          ⟨some (strToList "description"), none, none, List.replicate 218 'b'⟩],
          none, none⟩)).issues.countP isDescLenIssue = 1) := by
  have hgen : ∀ t d : List Char,
      ((checkMetaTags [] []
          (some ⟨some [⟨some (strToList "title"), none, none, t⟩,
            ⟨some (strToList "description"), none, none, d⟩], none, none⟩)).issues.countP
          isTitleLenIssue
        = if t.length < 30 ∨ 60 < t.length then 1 else 0) ∧
      ((checkMetaTags [] []
          (some ⟨some [⟨some (strToList "title"), none, none, t⟩,
            ⟨some (strToList "description"), none, none, d⟩], none, none⟩)).issues.countP
          isDescLenIssue
        = if d.length < 120 ∨ 160 < d.length then 1 else 0) := by
    intro t d
    obtain ⟨h1, h2, _, _, _, _, _, _⟩ := checkMetaTagsDynamic_counts
      [⟨some (strToList "title"), none, none, t⟩,
       ⟨some (strToList "description"), none, none, d⟩]
      ⟨some [⟨some (strToList "title"), none, none, t⟩,
        ⟨some (strToList "description"), none, none, d⟩], none, none⟩
    have htitle : (checkMetaTagsDynamic
        [⟨some (strToList "title"), none, none, t⟩,
         ⟨some (strToList "description"), none, none, d⟩]
        ⟨some [⟨some (strToList "title"), none, none, t⟩,
          ⟨some (strToList "description"), none, none, d⟩], none, none⟩).title = some t := rfl
    have hdesc : (checkMetaTagsDynamic
        [⟨some (strToList "title"), none, none, t⟩,
         ⟨some (strToList "description"), none, none, d⟩]
        ⟨some [⟨some (strToList "title"), none, none, t⟩,
          ⟨some (strToList "description"), none, none, d⟩], none, none⟩).description
        = some d := rfl
    rw [htitle] at h1
    rw [hdesc] at h2
    exact ⟨h1, h2⟩
  refine ⟨hgen, ?_, ?_⟩
  · have h := (hgen (List.replicate 38 'a') (List.replicate 218 'b')).1
    rw [h, List.length_replicate]
    norm_num
  · have h := (hgen (List.replicate 38 'a') (List.replicate 218 'b')).2
    rw [h, List.length_replicate]
    norm_num

theorem jsRound_nonneg {q : ℚ} (h : 0 ≤ q) : 0 ≤ jsRound q := by
  unfold jsRound
  exact Int.le_floor.mpr (by push_cast; linarith)

theorem jsRound_le_20 {q : ℚ} (h : q ≤ 20) : jsRound q ≤ 20 := by
  unfold jsRound
  have h21 : (⌊q + 1 / 2⌋ : ℤ) < 21 := Int.floor_lt.mpr (by push_cast; linarith)
  omega

theorem jsRoundQ_nonneg {q : ℚ} (h : 0 ≤ q) : (0 : ℚ) ≤ ((jsRound q : ℤ) : ℚ) := by
  have := jsRound_nonneg h
  exact_mod_cast this

theorem jsRoundQ_le_20 {q : ℚ} (h : q ≤ 20) : ((jsRound q : ℤ) : ℚ) ≤ 20 := by
  have := jsRound_le_20 h
  exact_mod_cast this

theorem sum_map_nonneg {α : Type} (l : List α) (f : α → ℚ) (hf : ∀ a, 0 ≤ f a) :
    0 ≤ (l.map f).sum := by
  refine List.sum_nonneg ?_
  intro x hx
  obtain ⟨a, _, rfl⟩ := List.mem_map.1 hx
  exact hf a

theorem max0_bounds (x : ℚ) (hx : x ≤ 20) : 0 ≤ max 0 x ∧ max 0 x ≤ 20 :=
  ⟨le_max_left 0 x, max_le (by norm_num) hx⟩

theorem structScore_bounds (r : Bool) (q : ℚ) (h0 : 0 ≤ q) (h20 : q ≤ 20) :
    (0 : ℚ) ≤ ((if r = true then min 20 (jsRound q + 2) else jsRound q : ℤ) : ℚ) ∧
    ((if r = true then min 20 (jsRound q + 2) else jsRound q : ℤ) : ℚ) ≤ 20 := by
  have hj0 := jsRound_nonneg h0
  have hj20 := jsRound_le_20 h20
  constructor
  · cases r
    · simp only [Bool.false_eq_true, if_false]
      exact_mod_cast hj0
    · simp only [if_pos rfl]
      have : (0 : ℤ) ≤ min 20 (jsRound q + 2) := le_min (by norm_num) (by omega)
      exact_mod_cast this
  · cases r
    · simp only [Bool.false_eq_true, if_false]
      exact_mod_cast hj20
    · simp only [if_pos rfl]
      have : min 20 (jsRound q + 2) ≤ (20 : ℤ) := min_le_left _ _
      exact_mod_cast this

/-- C2: after the scoring engine runs on any input, each of the five category
scores lies within [0, 20], its fixed maximum, and the five maxima sum to
exactly 100. -/
theorem c2_score_bounds (withSEO withoutSEO : List PageRecord)
    (robotsConfigured : Bool) (missingFromSitemap : List (List Char)) :
    (0 ≤ (calculateCategoryScores withSEO withoutSEO robotsConfigured
        missingFromSitemap).metaTags.score ∧
      (calculateCategoryScores withSEO withoutSEO robotsConfigured
        missingFromSitemap).metaTags.score ≤ 20) ∧
    (0 ≤ (calculateCategoryScores withSEO withoutSEO robotsConfigured
        missingFromSitemap).technicalSEO.score ∧
      (calculateCategoryScores withSEO withoutSEO robotsConfigured
        missingFromSitemap).technicalSEO.score ≤ 20) ∧
    (0 ≤ (calculateCategoryScores withSEO withoutSEO robotsConfigured
        missingFromSitemap).structuredData.score ∧
      (calculateCategoryScores withSEO withoutSEO robotsConfigured
        missingFromSitemap).structuredData.score ≤ 20) ∧
    (0 ≤ (calculateCategoryScores withSEO withoutSEO robotsConfigured
        missingFromSitemap).imagesMedia.score ∧
      (calculateCategoryScores withSEO withoutSEO robotsConfigured
        missingFromSitemap).imagesMedia.score ≤ 20) ∧
    (0 ≤ (calculateCategoryScores withSEO withoutSEO robotsConfigured
        missingFromSitemap).socialSharing.score ∧
      (calculateCategoryScores withSEO withoutSEO robotsConfigured
        missingFromSitemap).socialSharing.score ≤ 20) ∧
    ((calculateCategoryScores withSEO withoutSEO robotsConfigured
        missingFromSitemap).metaTags.maxScore
      + (calculateCategoryScores withSEO withoutSEO robotsConfigured
          missingFromSitemap).technicalSEO.maxScore
      + (calculateCategoryScores withSEO withoutSEO robotsConfigured
          missingFromSitemap).structuredData.maxScore
      + (calculateCategoryScores withSEO withoutSEO robotsConfigured
          missingFromSitemap).imagesMedia.maxScore
      + (calculateCategoryScores withSEO withoutSEO robotsConfigured
          missingFromSitemap).socialSharing.maxScore = 100) := by
  by_cases htp : withSEO.length + withoutSEO.length = 0
  · simp only [calculateCategoryScores, htp, if_true, initCategoryScores]
    norm_num
  · have htp' : 0 < withSEO.length + withoutSEO.length := Nat.pos_of_ne_zero htp
    have hlen : (0 : ℚ) < ((withSEO.length + withoutSEO.length : Nat) : ℚ) := by
      exact_mod_cast htp'
    simp only [calculateCategoryScores, htp, if_false]
    refine ⟨?_, ?_, ?_, ?_, ?_, by norm_num⟩
    · refine max0_bounds _ ?_
      have h1 : 0 ≤ (withSEO.map fun p => (p.metaTags.issues.length : ℚ) * (1 / 2)).sum :=
        sum_map_nonneg _ _ (fun a => by positivity)
      have h2 : (0 : ℚ) ≤ 2 * (withoutSEO.length : ℚ) := by positivity
      linarith
    · refine max0_bounds _ ?_
      have h1 : (0 : ℚ) ≤ ((withSEO.countP fun p => !p.metaTags.canonical : Nat) : ℚ) * 1 := by
        positivity
      have h2 : 0 ≤ (withSEO.map fun p => (p.headings.issues.length : ℚ) * (1 / 2)).sum :=
        sum_map_nonneg _ _ (fun a => by positivity)
      have h3 : (0 : ℚ) ≤ if robotsConfigured = true then 0 else 3 := by split <;> norm_num
      have h4 : (0 : ℚ) ≤ if 0 < missingFromSitemap.length
          then min 3 ((missingFromSitemap.length : ℚ) * (1 / 2)) else 0 := by
        split
        · exact le_min (by norm_num) (by positivity)
        · norm_num
      linarith
    · refine structScore_bounds _ _ ?_ ?_
      · rw [if_pos htp']
        positivity
      · rw [if_pos htp']
        have hone : ((withSEO.countP fun p => !p.schemas.isEmpty : Nat) : ℚ)
            / ((withSEO.length + withoutSEO.length : Nat) : ℚ) ≤ 1 := by
          refine (div_le_one hlen).mpr ?_
          have h1 : (withSEO.countP fun p => !p.schemas.isEmpty) ≤ withSEO.length :=
            List.countP_le_length _
          exact_mod_cast Nat.le_trans h1 (Nat.le_add_right _ _)
        nlinarith
    · refine max0_bounds _ ?_
      split
      · rename_i hpos
        refine jsRoundQ_le_20 ?_
        have hW : (0 : ℚ)
            ≤ (withSEO.map fun p => (p.images.imagesWithoutAlt : ℚ)).sum :=
          sum_map_nonneg _ _ (fun a => by positivity)
        rw [div_mul_eq_mul_div, div_le_iff₀ hpos]
        linarith
      · norm_num
    · refine max0_bounds _ ?_
      rw [if_pos htp']
      refine jsRoundQ_le_20 ?_
      have hog : ((pagesWithOGCount withSEO : Nat) : ℚ)
          / ((withSEO.length + withoutSEO.length : Nat) : ℚ) ≤ 1 := by
        refine (div_le_one hlen).mpr ?_
        have h1 : pagesWithOGCount withSEO ≤ withSEO.length := List.countP_le_length _
        exact_mod_cast Nat.le_trans h1 (Nat.le_add_right _ _)
      have htw : ((pagesWithTwitterCount withSEO : Nat) : ℚ)
          / ((withSEO.length + withoutSEO.length : Nat) : ℚ) ≤ 1 := by
        refine (div_le_one hlen).mpr ?_
        have h1 : pagesWithTwitterCount withSEO ≤ withSEO.length := List.countP_le_length _
        exact_mod_cast Nat.le_trans h1 (Nat.le_add_right _ _)
      nlinarith

/-- C3: whenever at least one document was analyzed, the stored social-sharing
score equals the ratio-based value: the JS rounding of the mean of the two
coverage fractions scaled to 20, floored at 0.  The formula depends only on
the tag-key counts and page totals, so the per-page subtractive step of
src/index.js line 944 never affects the stored score. -/
theorem c3_social_score_ratio (withSEO withoutSEO : List PageRecord)
    (robotsConfigured : Bool) (missingFromSitemap : List (List Char))
    (h : 0 < withSEO.length + withoutSEO.length) :
    (calculateCategoryScores withSEO withoutSEO robotsConfigured
        missingFromSitemap).socialSharing.score
      = max 0 ((jsRound ((((pagesWithOGCount withSEO : ℚ)
            / ((withSEO.length + withoutSEO.length : Nat) : ℚ)
          + (pagesWithTwitterCount withSEO : ℚ)
            / ((withSEO.length + withoutSEO.length : Nat) : ℚ)) / 2) * 20) : ℤ) : ℚ) := by
  have htp : ¬(withSEO.length + withoutSEO.length = 0) := Nat.pos_iff_ne_zero.mp h
  simp only [calculateCategoryScores, htp, if_false, h, if_true]

theorem c3_social_score_ratio_witness :
    0 < [baseRec].length + ([] : List PageRecord).length ∧
    (calculateCategoryScores [baseRec] [] true []).socialSharing.score = 0 := by
  constructor
  · decide
  · have hog : pagesWithOGCount [baseRec] = 0 := by decide
    have htw : pagesWithTwitterCount [baseRec] = 0 := by decide
    rw [c3_social_score_ratio [baseRec] [] true [] (by decide), hog, htw]
    norm_num [jsRound]
